import Mathlib

/-!
# Verification of the zooy declarative data binders

Shallow embedding of the two declarative JSON-to-DOM binding engines of the
repository:

* `src/src/ui/data-binder.js` (`DataBinder`): simple bindings
  (`data-bind`, `data-bind-attr`, `data-bind-format`, `data-bind-show-if`,
  `data-bind-hide-if`) plus template consumers (`data-bind-template`,
  `data-path`), `getData` with DRF pagination events, `setData`/`render`.
* `src/src/ui/binder.js` (`Binder`): the `zoo-*` attribute variant
  (`zoo-bind`, `zoo-bind-attr`, `zoo-template`, `zoo-template-bind`),
  panel-driven fetching with an abort signal.

Modelling conventions (each noted again at the definition it concerns):

* JSON numbers are modelled as integers (`Int`); the claims under
  verification only exercise integral values.
* The DOM is a rose tree.  `template` elements keep their inert content in a
  separate `content` field, which queries and binding passes never descend
  into, matching `HTMLTemplateElement.content` semantics.
* `Element.setAttribute` is modelled as erase-then-append on the attribute
  association list.  Real DOM keeps an updated attribute at its old position;
  no property proved here observes attribute order, and both semantics agree
  on attribute presence and values.
* URL query parameters are modelled post-`parseInt`: a query string is a list
  of `String × Int` pairs (`parseInt` of a missing parameter, i.e. `NaN`, is
  only ever consumed through `|| 0` / `|| 100` defaulting in the sources, so
  absence models it).
* `document.getElementById` (DataBinder) and `rootEl.querySelector`
  (Binder) are modelled as id lookups computed against the tree as it is when
  the rendering pass starts; rendering never mutates `<template>` content, so
  the lookup is stable during a pass unless rendered output shadows an id.
-/

/-- JSON values.  Numbers are modelled as `Int` (see header). -/
inductive Json where
  | null : Json
  | bool : Bool → Json
  | num : Int → Json
  | str : String → Json
  | arr : List Json → Json
  | obj : List (String × Json) → Json

/-- The JavaScript value held in a binder's private `#data` field.  Besides a
JSON value it can hold a rejected `Promise` object: in `DataBinder.getData`,
a non-OK `Response` makes the ternary at line 290 produce
`Promise.reject(new Error(...))` *without awaiting it*, and that promise
object is what reaches `setData`. -/
inductive JsData where
  | jval : Json → JsData
  | promise : JsData

/-- DOM node: text node, or element with tag name (uppercase, as `tagName`),
attributes, the `style.display` property, child nodes, and — relevant only
for `template` elements — the inert `content` fragment. -/
inductive Node where
  | text : String → Node
  | elem : String → List (String × String) → String → List Node → List Node → Node

namespace Zooy

/-- Whitespace test for the `trim` model (space, tab, newline, carriage
return cover the claims). -/
def isWs (c : Char) : Bool :=
  c = ' ' || c = Char.ofNat 9 || c = Char.ofNat 10 || c = Char.ofNat 13

/-- `String.prototype.trim`, over the character list (the built-in
`String.trim` does not reduce in the kernel). -/
def jsTrim (s : String) : String :=
  String.mk ((((s.data.dropWhile isWs).reverse).dropWhile isWs).reverse)

/-- Split a character list at a separator character; the result always has
at least one group, like `String.prototype.split`. -/
def splitChars (sep : Char) (cs : List Char) : List (List Char) :=
  cs.foldr
    (fun c acc =>
      match acc with
      | g :: gs => if c = sep then [] :: g :: gs else (c :: g) :: gs
      | [] => [[c]])
    [[]]

/-- `String.prototype.split` with a one-character separator (all splits in
the binder sources use one). -/
def jsSplit (sep : Char) (s : String) : List String :=
  (splitChars sep s.data).map String.mk

/-- Decimal digit value of a character, if it is a digit. -/
def digitVal (c : Char) : Option Nat :=
  if c = '0' then some 0 else if c = '1' then some 1
  else if c = '2' then some 2 else if c = '3' then some 3
  else if c = '4' then some 4 else if c = '5' then some 5
  else if c = '6' then some 6 else if c = '7' then some 7
  else if c = '8' then some 8 else if c = '9' then some 9 else none

/-- A canonical array-index key for `R.path`'s `val[p]` access: JavaScript
arrays own exactly the keys `String(i)`, so only a plain decimal numeral
with no leading zero (or exactly `"0"`) resolves — `"01"` is not an own
property and yields `undefined`. -/
def jsArrayIndex (s : String) : Option Nat :=
  match s.data with
  | [] => none
  | c :: cs =>
      if c = '0' then if cs = [] then some 0 else none
      else
        (c :: cs).foldl
          (fun acc ch =>
            match acc, digitVal ch with
            | some n, some d => some (n * 10 + d)
            | _, _ => none)
          (some 0)

/-- First-match lookup in an association list (attribute maps, JSON
objects, query strings). -/
def assocFind {α : Type} : List (String × α) → String → Option α
  | [], _ => none
  | p :: rest, k => if p.1 = k then some p.2 else assocFind rest k

/-- Remove every binding of key `k` from an association list. -/
def assocErase {α : Type} : List (String × α) → String → List (String × α)
  | [], _ => []
  | p :: rest, k => if p.1 = k then assocErase rest k else p :: assocErase rest k

/-- First-match attribute lookup, as `Element.getAttribute` (absent ↦ `null`,
modelled `none`). -/
def getAttr (a : List (String × String)) (k : String) : Option String :=
  assocFind a k

/-- Remove every binding of key `k` (used by `removeAttribute` and as the
first half of `setAttribute`). -/
def eraseKey (a : List (String × String)) (k : String) : List (String × String) :=
  assocErase a k

/-- `Element.setAttribute`, modelled as erase-then-append (see header note on
attribute order). -/
def setAttr (a : List (String × String)) (k v : String) : List (String × String) :=
  eraseKey a k ++ [(k, v)]

/-- Stringification applied when a JSON value is written into an attribute
(`setAttribute` coerces to string).  Array/object cases approximate
JavaScript `String(...)`; no claim observes them. -/
def jsToString : Json → String
  | Json.null => "null"
  | Json.bool true => "true"
  | Json.bool false => "false"
  | Json.num n => toString n
  | Json.str s => s
  | Json.arr xs => String.intercalate "," (xs.map fun j => jsToStringAux j)
  | Json.obj _ => "[object Object]"
where
  /-- Elements of an array being stringified (JS `Array.prototype.join`). -/
  jsToStringAux : Json → String
  | Json.null => ""
  | Json.bool true => "true"
  | Json.bool false => "false"
  | Json.num n => toString n
  | Json.str s => s
  | Json.arr _ => ""
  | Json.obj _ => "[object Object]"

/-- `isDefAndNotNull` from the `badu` library: defined and not `null`. -/
def isDefAndNotNull : Option Json → Bool
  | none => false
  | some Json.null => false
  | some _ => true

/-- JavaScript truthiness of a looked-up value (`undefined` is `none`). -/
def truthy : Option Json → Bool
  | none => false
  | some Json.null => false
  | some (Json.bool b) => b
  | some (Json.num n) => n != 0
  | some (Json.str s) => s != ""
  | some (Json.arr _) => true
  | some (Json.obj _) => true

/-- First-match field lookup in a JSON object. -/
def lookupField (fs : List (String × Json)) (k : String) : Option Json :=
  assocFind fs k

/-- `R.has(k)`: own-property test on a JSON value (false on non-objects). -/
def hasKey (j : Json) (k : String) : Bool :=
  match j with
  | Json.obj fs => (lookupField fs k).isSome
  | _ => false

/-- `R.path`: walk a list of keys by property access (`val[p]`); object
fields by name, array elements by canonical numeric index plus the
`length` property, `undefined` (`none`) otherwise.  (Character indexing
into strings and inherited prototype properties are outside the model; no
claim exercises them.) -/
def jsonPath : List String → Json → Option Json
  | [], j => some j
  | k :: ks, Json.obj fs =>
      match lookupField fs k with
      | some v => jsonPath ks v
      | none => none
  | k :: ks, Json.arr xs =>
      if k = "length" then jsonPath ks (Json.num xs.length)
      else
        match jsArrayIndex k with
        | some i =>
            match xs.get? i with
            | some v => jsonPath ks v
            | none => none
        | none => none
  | _ :: _, _ => none

/-- Path lookup through the binder's data slot.  `R.path` into a promise
object yields `undefined` for every non-empty path, and `split('.')` never
produces an empty path. -/
def dataPathLookup (d : JsData) (ks : List String) : Option Json :=
  match d with
  | JsData.jval j => jsonPath ks j
  | JsData.promise => none

/-- `DataBinder.#getValue` (data-binder.js lines 582-593): `$index` and
`$index1` are pagination-aware — they already include `#offset` — and every
other string is a dotted path. -/
def dbGetValue (offset : Int) (d : JsData) (p : String) (index : Nat) : Option Json :=
  if p = "$index" then some (Json.num (offset + index))
  else if p = "$index1" then some (Json.num (offset + index + 1))
  else dataPathLookup d (jsSplit '.' p)

/-- `Binder.#getValue` (binder.js lines 320-333): four special variables;
`$index`/`$index1` are page-local, the `__paged` variants add the offset. -/
def bGetValue (offset : Int) (d : JsData) (p : String) (index : Nat) : Option Json :=
  if p = "$index" then some (Json.num index)
  else if p = "$index__paged" then some (Json.num (offset + index))
  else if p = "$index1" then some (Json.num (index + 1))
  else if p = "$index1__paged" then some (Json.num (offset + index + 1))
  else dataPathLookup d (jsSplit '.' p)

end Zooy

namespace Zooy

/-- Formatter table: `options.formatters` merged over `DEFAULT_FORMATTERS`.
A formatter receives the looked-up value and the whole data object and
returns a JavaScript value (`none` = `undefined`). -/
abbrev Formatters := String → Option (Option Json → JsData → Option Json)

/-- Parse a `data-bind-attr` / `zoo-bind-attr` value:
`bindings.split(',')`, then for each binding `split(':')` and trim; the
attribute name is part 0 and the path part 1 (`none` when there is no colon —
the JavaScript then crashes on `undefined.split`, see `wfBindSpec`). -/
def parseBindings (s : String) : List (String × Option String) :=
  (jsSplit ',' s).map fun b =>
    match (jsSplit ':' b).map jsTrim with
    | a :: rest => (a, rest.head?)
    | [] => ("", none)

/-- Well-formedness of a `data-bind-attr` value: every comma-separated
binding contains a colon (otherwise the source throws a `TypeError` on
`undefined.split('.')`, which the total model does not represent). -/
def wfBindSpec (s : String) : Bool :=
  (parseBindings s).all fun p => p.2.isSome

/-- The attribute writes performed for one `data-bind-attr` value: bindings
whose looked-up value is defined and non-null, with the value stringified by
`setAttribute`.  (`getValue` selects the DataBinder or Binder lookup.) -/
def opsOf (getValue : String → Option Json) (s : String) : List (String × String) :=
  (parseBindings s).filterMap fun p =>
    match p.2 with
    | none => none
    | some path =>
        let v := getValue path
        if isDefAndNotNull v then
          match v with
          | some j => some (p.1, jsToString j)
          | none => none
        else none

/-- Apply a list of attribute writes in order (`setAttribute` each). -/
def applyOps (a : List (String × String)) (ops : List (String × String)) :
    List (String × String) :=
  ops.foldl (fun acc p => setAttr acc p.1 p.2) a

/-- The `[data-bind-attr]` pass on one element (data-binder.js lines
396-412): read the binding spec, apply each write, and with
`removeAttributes` strip the marker afterwards. -/
def attrPass (getValue : String → Option Json) (ra : Bool)
    (a : List (String × String)) : List (String × String) :=
  match getAttr a "data-bind-attr" with
  | none => a
  | some s =>
      let a1 := applyOps a (opsOf getValue s)
      if ra then eraseKey a1 "data-bind-attr" else a1

/-- `value ?? ''` then `el.textContent = ...`: `null`/`undefined` become the
empty string. -/
def jsTextContent : Option Json → String
  | none => ""
  | some Json.null => ""
  | some j => jsToString j

/-- Children of an element after `el.textContent = s`: the empty string
leaves no child node, anything else a single text node. -/
def textChildren (s : String) : List Node :=
  if s = "" then [] else [Node.text s]

/-- The `[data-bind]` content pass on one element (data-binder.js lines
415-433): look the path up, apply a named formatter when present, assign
`textContent`, and with `removeAttributes` strip both markers.  Returns the
updated attributes and the new children. -/
def bindPass (fm : Formatters) (d : JsData) (getValue : String → Option Json)
    (ra : Bool) (a : List (String × String)) (ch : List Node) :
    List (String × String) × List Node × Bool :=
  match getAttr a "data-bind" with
  | none => (a, ch, false)
  | some p =>
      let v := getValue p
      let v1 :=
        match getAttr a "data-bind-format" with
        | some f =>
            if f = "" then v
            else
              match fm f with
              | some F => F v d
              | none => v
        | none => v
      let a1 := if ra then eraseKey (eraseKey a "data-bind") "data-bind-format" else a
      (a1, textChildren (jsTextContent v1), true)

/-- Outcome of one conditional (`show-if`/`hide-if`) pass on one element:
either the element is removed, or its attributes and `style.display` are
updated. -/
inductive CondResult where
  | removed : CondResult
  | kept : List (String × String) → String → CondResult

/-- The `[data-bind-show-if]` pass on one element (data-binder.js lines
436-457): a falsy value removes the element (`removeOnCondition`) or hides
it (`display:none`); a truthy value restores `display` to the empty string
in the non-removing mode.  The source's `removeAttribute` of this marker is
guarded by `removeAttributes && !el.isConnected` taking the do-nothing
branch first; `removeAttributes: true` only ever runs on a detached
`DocumentFragment` clone, where `el.isConnected` is false for every
element, so the marker is *never* removed from a kept element and the
`removeAttributes` flag has no effect in this pass. -/
def showIfPass (getValue : String → Option Json) (ro _ra : Bool)
    (a : List (String × String)) (disp : String) : CondResult :=
  match getAttr a "data-bind-show-if" with
  | none => CondResult.kept a disp
  | some c =>
      let v := truthy (getValue c)
      if !v then
        if ro then CondResult.removed
        else CondResult.kept a "none"
      else CondResult.kept a (if !ro then "" else disp)

/-- The `[data-bind-hide-if]` pass on one element (data-binder.js lines
460-481), symmetric to `showIfPass` — including the `!el.isConnected`
guard that keeps this marker on every kept element of a detached clone. -/
def hideIfPass (getValue : String → Option Json) (ro _ra : Bool)
    (a : List (String × String)) (disp : String) : CondResult :=
  match getAttr a "data-bind-hide-if" with
  | none => CondResult.kept a disp
  | some c =>
      let v := truthy (getValue c)
      if v then
        if ro then CondResult.removed
        else CondResult.kept a "none"
      else CondResult.kept a (if !ro then "" else disp)

mutual

/-- `DataBinder.#renderSimpleBindings` (data-binder.js lines 391-482)
restricted to one node of the walked subtree.  The source runs four
sequential static `querySelectorAll` passes over the whole subtree; since
processing an element only ever mutates that element itself (its attributes,
`style.display`, `textContent`) or removes it, the four passes fuse into one
preorder traversal.  An element whose `closest('[data-bind-template]')`
matches — itself or an ancestor carrying the marker, including a marker the
element wrote onto itself during the attribute pass — is skipped together
with its whole subtree.  `none` means the element was removed
(`removeOnCondition` with a failed conditional). -/
def sbNode (fm : Formatters) (offset : Int) (d : JsData) (index : Nat)
    (ro ra : Bool) : Node → Option Node
  | Node.text s => some (Node.text s)
  | Node.elem tag a disp ch ct =>
      if (getAttr a "data-bind-template").isSome then
        some (Node.elem tag a disp ch ct)
      else
        let getValue := fun p => dbGetValue offset d p index
        let a1 := attrPass getValue ra a
        if (getAttr a1 "data-bind-template").isSome then
          some (Node.elem tag a1 disp ch ct)
        else
          match bindPass fm d getValue ra a1 ch with
          | (a2, ch2, didBind) =>
            match showIfPass getValue ro ra a2 disp with
            | CondResult.removed => none
            | CondResult.kept a3 disp3 =>
              match hideIfPass getValue ro ra a3 disp3 with
              | CondResult.removed => none
              | CondResult.kept a4 disp4 =>
                  let ch4 := if didBind then ch2 else sbNodes fm offset d index ro ra ch
                  some (Node.elem tag a4 disp4 ch4 ct)

/-- `sbNode` over a child list; removed elements disappear. -/
def sbNodes (fm : Formatters) (offset : Int) (d : JsData) (index : Nat)
    (ro ra : Bool) : List Node → List Node
  | [] => []
  | n :: ns =>
      match sbNode fm offset d index ro ra n with
      | some m => m :: sbNodes fm offset d index ro ra ns
      | none => sbNodes fm offset d index ro ra ns

end

/-- `DataBinder.#renderSimpleBindings` applied at the pass root: the root
element itself is never in its own `querySelectorAll` results, but if the
root carries `data-bind-template` every descendant's `closest` matches it
and the whole pass is a no-op. -/
def sbRoot (fm : Formatters) (offset : Int) (d : JsData) (index : Nat)
    (ro ra : Bool) : Node → Node
  | Node.text s => Node.text s
  | Node.elem tag a disp ch ct =>
      if (getAttr a "data-bind-template").isSome then Node.elem tag a disp ch ct
      else Node.elem tag a disp (sbNodes fm offset d index ro ra ch) ct

end Zooy

namespace Zooy

/-- Extract the data slice for a template consumer and check
`Array.isArray` (data-binder.js lines 508-517): the `data-path` attribute, a
dotted path into `#data`, or the whole payload when absent *or empty*
(`dataPath ?` is falsy on the empty string).  `some items` exactly when the
slice is a JavaScript array. -/
def consumerSlice (d : JsData) (dataPath : Option String) : Option (List Json) :=
  let slice : Option Json :=
    match dataPath with
    | some p =>
        if p = "" then
          match d with
          | JsData.jval j => some j
          | JsData.promise => none
        else dataPathLookup d (jsSplit '.' p)
    | none =>
        match d with
        | JsData.jval j => some j
        | JsData.promise => none
  match slice with
  | some (Json.arr items) => some items
  | _ => none

/-- `DataBinder.#renderTemplateItem` (data-binder.js lines 550-562): clone
the template content and run the unified simple-bindings pass with
`removeOnCondition` and `removeAttributes` both true. -/
def renderItem (fm : Formatters) (offset : Int) (content : List Node)
    (item : Json) (index : Nat) : List Node :=
  sbNodes fm offset (JsData.jval item) index true true content

mutual

/-- `DataBinder.#renderTemplateConsumers` (data-binder.js lines 489-527)
restricted to one node.  A `[data-bind-template]` element is validated
(non-empty template id, the id resolves to a `<template>`, the data slice is
an array); on success its children are replaced by one bound clone of the
template content per array item (`innerHTML = ''` then `appendChild` per
item), and the static `NodeList` never reaches the freshly inserted clones.
On a validation failure the consumer is skipped — its original children stay
and nested consumers from the static list are still processed.  `lookup`
models `document.getElementById`. -/
def cpNode (fm : Formatters) (lookup : String → Option Node) (offset : Int)
    (d : JsData) : Node → Node
  | Node.text s => Node.text s
  | Node.elem tag a disp ch ct =>
      match getAttr a "data-bind-template" with
      | none => Node.elem tag a disp (cpNodes fm lookup offset d ch) ct
      | some tid =>
          if tid = "" then
            Node.elem tag a disp (cpNodes fm lookup offset d ch) ct
          else
            match lookup tid with
            | some (Node.elem ttag _ _ _ tct) =>
                if ttag = "TEMPLATE" then
                  match consumerSlice d (getAttr a "data-path") with
                  | some items =>
                      Node.elem tag a disp
                        ((items.mapIdx fun i it => renderItem fm offset tct it i).flatten) ct
                  | none => Node.elem tag a disp (cpNodes fm lookup offset d ch) ct
                else Node.elem tag a disp (cpNodes fm lookup offset d ch) ct
            | some (Node.text _) => Node.elem tag a disp (cpNodes fm lookup offset d ch) ct
            | none => Node.elem tag a disp (cpNodes fm lookup offset d ch) ct

/-- `cpNode` over a child list. -/
def cpNodes (fm : Formatters) (lookup : String → Option Node) (offset : Int)
    (d : JsData) : List Node → List Node
  | [] => []
  | n :: ns => cpNode fm lookup offset d n :: cpNodes fm lookup offset d ns

end

/-- The consumer pass from the root: `this.#root.querySelectorAll` matches
descendants only, so the root element itself is never treated as a
consumer. -/
def cpRoot (fm : Formatters) (lookup : String → Option Node) (offset : Int)
    (d : JsData) : Node → Node
  | Node.text s => Node.text s
  | Node.elem tag a disp ch ct =>
      Node.elem tag a disp (cpNodes fm lookup offset d ch) ct

/-- JavaScript falsiness of the data slot (`if (!this.#data)`). -/
def jsDataFalsy : JsData → Bool
  | JsData.promise => false
  | JsData.jval Json.null => true
  | JsData.jval (Json.bool b) => !b
  | JsData.jval (Json.num n) => n == 0
  | JsData.jval (Json.str s) => s == ""
  | JsData.jval (Json.arr _) => false
  | JsData.jval (Json.obj _) => false

/-- `DataBinder.render` (data-binder.js lines 363-374): warn-and-return on a
falsy data slot, else the simple-bindings pass over the root (index 0, no
removal, markers kept) followed by the template-consumer pass. -/
def render (fm : Formatters) (lookup : String → Option Node) (offset : Int)
    (d : JsData) (root : Node) : Node :=
  if jsDataFalsy d then root
  else cpRoot fm lookup offset d (sbRoot fm offset d 0 false false root)

mutual

/-- `document.getElementById` over a document tree: first element in
preorder whose `id` attribute is the given string.  Inert template content
is not part of the document and is not searched. -/
def getElementById (tid : String) : Node → Option Node
  | Node.text _ => none
  | Node.elem tag a disp ch ct =>
      if getAttr a "id" = some tid then some (Node.elem tag a disp ch ct)
      else getElementByIdList tid ch

/-- `getElementById` over a child list. -/
def getElementByIdList (tid : String) : List Node → Option Node
  | [] => none
  | n :: ns =>
      match getElementById tid n with
      | some m => some m
      | none => getElementByIdList tid ns

end

end Zooy

namespace Zooy

/-- The `[zoo-bind-attr]` pass on one element (binder.js lines 196-211),
structurally identical to `attrPass` but with the `zoo-` attribute names. -/
def bAttrPass (getValue : String → Option Json) (ra : Bool)
    (a : List (String × String)) : List (String × String) :=
  match getAttr a "zoo-bind-attr" with
  | none => a
  | some s =>
      let a1 := applyOps a (opsOf getValue s)
      if ra then eraseKey a1 "zoo-bind-attr" else a1

/-- The `[zoo-bind]` content pass on one element (binder.js lines
213-228). -/
def bBindPass (fm : Formatters) (d : JsData) (getValue : String → Option Json)
    (ra : Bool) (a : List (String × String)) (ch : List Node) :
    List (String × String) × List Node × Bool :=
  match getAttr a "zoo-bind" with
  | none => (a, ch, false)
  | some p =>
      let v := getValue p
      let v1 :=
        match getAttr a "zoo-bind-format" with
        | some f =>
            if f = "" then v
            else
              match fm f with
              | some F => F v d
              | none => v
        | none => v
      let a1 := if ra then eraseKey (eraseKey a "zoo-bind") "zoo-bind-format" else a
      (a1, textChildren (jsTextContent v1), true)

mutual

/-- `Binder.#renderSimpleBindings` (binder.js lines 193-230) on one node:
only the attribute and content passes exist (no conditionals, so no element
is ever removed and the traversal is total); elements whose
`closest('[zoo-template]')` matches are skipped with their subtree. -/
def bSbNode (fm : Formatters) (offset : Int) (d : JsData) (index : Nat)
    (ra : Bool) : Node → Node
  | Node.text s => Node.text s
  | Node.elem tag a disp ch ct =>
      if (getAttr a "zoo-template").isSome then Node.elem tag a disp ch ct
      else
        let getValue := fun p => bGetValue offset d p index
        let a1 := bAttrPass getValue ra a
        if (getAttr a1 "zoo-template").isSome then Node.elem tag a1 disp ch ct
        else
          match bBindPass fm d getValue ra a1 ch with
          | (a2, ch2, didBind) =>
              let ch3 := if didBind then ch2 else bSbNodes fm offset d index ra ch
              Node.elem tag a2 disp ch3 ct

/-- `bSbNode` over a child list. -/
def bSbNodes (fm : Formatters) (offset : Int) (d : JsData) (index : Nat)
    (ra : Bool) : List Node → List Node
  | [] => []
  | n :: ns => bSbNode fm offset d index ra n :: bSbNodes fm offset d index ra ns

end

/-- `Binder.#renderTemplateItem` (binder.js lines 293-303): clone the
content, bind with `removeAttributes: true` (no `removeOnCondition` in the
Binder). -/
def bRenderItem (fm : Formatters) (offset : Int) (content : List Node)
    (item : Json) (index : Nat) : List Node :=
  bSbNodes fm offset (JsData.jval item) index true content

/-- The data slice of a Binder template consumer (binder.js lines 256-271):
`zoo-template-bind` path or whole payload; the source rejects a falsy slice
and a non-array slice in two steps, but an empty array is truthy, so the
two checks accept exactly the arrays, as in `consumerSlice`. -/
def bConsumerSlice (d : JsData) (dataPath : Option String) : Option (List Json) :=
  consumerSlice d dataPath

mutual

/-- `Binder.#renderTemplateConsumers` (binder.js lines 237-281) on one node.
`lookup` models `this.#rootEl.querySelector('#' + templateId)`. -/
def bCpNode (fm : Formatters) (lookup : String → Option Node) (offset : Int)
    (d : JsData) : Node → Node
  | Node.text s => Node.text s
  | Node.elem tag a disp ch ct =>
      match getAttr a "zoo-template" with
      | none => Node.elem tag a disp (bCpNodes fm lookup offset d ch) ct
      | some tid =>
          if tid = "" then
            Node.elem tag a disp (bCpNodes fm lookup offset d ch) ct
          else
            match lookup tid with
            | some (Node.elem ttag _ _ _ tct) =>
                if ttag = "TEMPLATE" then
                  match bConsumerSlice d (getAttr a "zoo-template-bind") with
                  | some items =>
                      Node.elem tag a disp
                        ((items.mapIdx fun i it => bRenderItem fm offset tct it i).flatten) ct
                  | none => Node.elem tag a disp (bCpNodes fm lookup offset d ch) ct
                else Node.elem tag a disp (bCpNodes fm lookup offset d ch) ct
            | some (Node.text _) => Node.elem tag a disp (bCpNodes fm lookup offset d ch) ct
            | none => Node.elem tag a disp (bCpNodes fm lookup offset d ch) ct

/-- `bCpNode` over a child list. -/
def bCpNodes (fm : Formatters) (lookup : String → Option Node) (offset : Int)
    (d : JsData) : List Node → List Node
  | [] => []
  | n :: ns => bCpNode fm lookup offset d n :: bCpNodes fm lookup offset d ns

end

/-- `rootEl.querySelector('#' + id)`: first descendant of the root (the root
itself is not matched by `querySelector`) whose `id` attribute is the given
string. -/
def querySelectorId (root : Node) (tid : String) : Option Node :=
  match root with
  | Node.text _ => none
  | Node.elem _ _ _ ch _ => getElementByIdList tid ch

/-- `Binder.#renderTemplateConsumers` from the root: descendants only, with
the template lookup `querySelector` running against the root. -/
def bRenderTemplateConsumers (fm : Formatters) (offset : Int) (d : JsData)
    (root : Node) : Node :=
  match root with
  | Node.text s => Node.text s
  | Node.elem tag a disp ch ct =>
      Node.elem tag a disp
        (bCpNodes fm (querySelectorId (Node.elem tag a disp ch ct)) offset d ch) ct

/-- `Binder.render` (binder.js lines 168-176): warn-and-return unless the
data slot is defined and non-null, else simple bindings then template
consumers. -/
def bRender (fm : Formatters) (offset : Int) (d : Option JsData) (root : Node) :
    Node :=
  match d with
  | none => root
  | some (JsData.jval Json.null) => root
  | some dd =>
      bRenderTemplateConsumers fm offset dd
        (match root with
         | Node.text s => Node.text s
         | Node.elem tag a disp ch ct =>
             if (getAttr a "zoo-template").isSome then Node.elem tag a disp ch ct
             else Node.elem tag a disp (bSbNodes fm offset dd 0 false ch) ct)

/-- Modelled from the spec (refinement comparison only, for the sibling
claim): the spec's words say a repeat-anchor clones «a sibling `<template>`
element»; this definition locates, among the given sibling list of a
consumer, the first `<template>` whose `id` is the consumer's template id.
The source instead uses a document- or root-wide id lookup. -/
def specSiblingTemplate (siblings : List Node) (tid : String) : Option Node :=
  siblings.find? fun n =>
    match n with
    | Node.elem "TEMPLATE" a _ _ _ => getAttr a "id" = some tid
    | _ => false

end Zooy

namespace Zooy

/-- URL query parameters after `parseInt`: see the header note.  Absent
parameters are simply missing from the list. -/
abbrev QueryParams := List (String × Int)

/-- `url.searchParams.get k` composed with `parseInt`, first match. -/
def findParam (qs : QueryParams) (k : String) : Option Int :=
  assocFind qs k

/-- `url.searchParams.set` for one parameter. -/
def setParam (qs : QueryParams) (k : String) (v : Int) : QueryParams :=
  assocErase qs k ++ [(k, v)]

/-- Merge call-time parameters over the parameters already in the URL
(data-binder.js lines 276-280; `isDefAndNotNull` filtering is modelled by
callers only passing defined parameters). -/
def mergeParams (base ps : QueryParams) : QueryParams :=
  ps.foldl (fun acc p => setParam acc p.1 p.2) base

/-- `parseInt(url.searchParams.get('offset')) || 0` (data-binder.js line
283): absent (`NaN`) and `0` both collapse to `0`. -/
def offsetOf (qs : QueryParams) : Int :=
  match findParam qs "offset" with
  | some v => v
  | none => 0

/-- `parseInt(url.searchParams.get('limit')) || 100` (data-binder.js line
297): absent (`NaN`) and `0` both collapse to `100`. -/
def limitResolved (qs : QueryParams) : Int :=
  match findParam qs "limit" with
  | some v => if v = 0 then 100 else v
  | none => 100

/-- `Math.floor(a / b)` on integers with `b ≠ 0`: floor division. -/
def jsFloorDiv (a b : Int) : Int := Int.fdiv a b

/-- `Math.ceil(a / b)` on integers with `b ≠ 0`. -/
def jsCeilDiv (a b : Int) : Int := -(Int.fdiv (-a) b)

/-- Detail payload of a dispatched `CustomEvent`.  `totalPages = none`
models the `NaN` produced when `count` is not a number. -/
inductive EvDetail where
  | plain : EvDetail
  | errorD : EvDetail
  | loadedD : JsData → EvDetail
  | pagination : Option Json → Option Json → Option Json →
      Int → Int → Int → Option Int → Bool → Bool → EvDetail

/-- A dispatched `CustomEvent`: name, `bubbles`, detail. -/
structure EventRec where
  name : String
  bubbles : Bool
  detail : EvDetail

/-- Result of the (possibly custom) fetch function: a `Response` with its
`ok` flag and JSON body, directly returned data (custom `fetchFn`), or a
rejection (network failure / thrown error). -/
inductive FetchResult where
  | response : Bool → Json → FetchResult
  | direct : Json → FetchResult
  | reject : FetchResult

/-- `DataBinder` instance state: configuration (`#url`), the root subtree it
owns, the last-set payload (`#data`, initially `null`) and the parsed
pagination offset (`#offset`, initially `0`).  Formatters are modelled as an
explicit argument to the rendering functions. -/
structure DBState where
  url : String
  root : Node
  data : Option JsData
  offset : Int

/-- The `DataBinder` constructor (data-binder.js lines 239-253): throws when
`url` is falsy (the empty string) or `root` is not an `Element` (`none`);
otherwise only stores configuration — nothing is fetched and no rendering
happens. -/
def dataBinderNew (url : String) (root : Option Node) : Except String DBState :=
  if url = "" then Except.error "DataBinder requires a URL"
  else
    match root with
    | none => Except.error "DataBinder requires a valid root Element"
    | some r => Except.ok { url := url, root := r, data := none, offset := 0 }

/-- `DataBinder.setData` (data-binder.js lines 341-344): store the payload
and render. -/
def setData (fm : Formatters) (lookup : String → Option Node) (st : DBState)
    (d : JsData) : DBState :=
  { st with data := some d, root := render fm lookup st.offset d st.root }

/-- `x !== null` on an optional JSON value: `undefined` (absent key) also
satisfies the strict inequality. -/
def isNotNull : Option Json → Bool
  | some Json.null => false
  | _ => true

/-- Build the DRF pagination `CustomEvent` (data-binder.js lines 295-316):
`R.pick(['count','next','previous'])`, the `|| 100` / `|| 0` parameter
defaults, `Math.floor(offset/limit)+1`, `Math.ceil(count/limit)` (`NaN`,
i.e. `none`, when `count` is not a number), and `hasNext`/`hasPrevious` as
strict `!== null` tests — an absent key is `undefined`, which satisfies
`!== null`.  The event name comes from the root's `data-pagination-event`
attribute, falling back to the default on an absent or falsy value. -/
def paginationEvent (rootAttrs : List (String × String)) (qs : QueryParams)
    (fs : List (String × Json)) : EventRec :=
  let cnt := lookupField fs "count"
  let nxt := lookupField fs "next"
  let prv := lookupField fs "previous"
  let limit := limitResolved qs
  let off := offsetOf qs
  let page := jsFloorDiv off limit + 1
  let totalPages :=
    match cnt with
    | some (Json.num c) => some (jsCeilDiv c limit)
    | _ => none
  let name :=
    match getAttr rootAttrs "data-pagination-event" with
    | some s => if s = "" then "data-pagination" else s
    | none => "data-pagination"
  { name := name, bubbles := true,
    detail := EvDetail.pagination cnt nxt prv limit off page totalPages
      (isNotNull nxt) (isNotNull prv) }

/-- Attributes of the root element (for the pagination event name). -/
def rootAttrsOf : Node → List (String × String)
  | Node.text _ => []
  | Node.elem _ a _ _ _ => a

/-- `DataBinder.getData` (data-binder.js lines 270-328).  `base` is the
query already carried by `#url`; `params` the call-time parameters; `fr`
the outcome of `#fetchFn`.  Returns the dispatched events in order, the
updated state, and the fulfilment of the returned promise.  Faithful
details: `#offset` is parsed *before* the fetch, so it is updated even on a
rejected fetch; a non-OK `Response` is never awaited — the ternary yields a
rejected promise object which flows into `setData` while `data-loaded` is
still dispatched, and the `return` then adopts that rejected promise, so
the caller's promise rejects (uncaught: adoption happens after the
try/catch, so no `data-error` fires on this path); a fetch rejection is
caught, `data-error` dispatched, and the error *re-thrown* to the
caller. -/
def getData (fm : Formatters) (lookup : String → Option Node) (st : DBState)
    (base params : QueryParams) (fr : FetchResult) :
    List EventRec × DBState × Except Unit JsData :=
  let qs := mergeParams base params
  let off := offsetOf qs
  let st1 := { st with offset := off }
  let loading : EventRec := { name := "data-loading", bubbles := true, detail := EvDetail.plain }
  match fr with
  | FetchResult.reject =>
      ([loading, { name := "data-error", bubbles := true, detail := EvDetail.errorD }],
       st1, Except.error ())
  | FetchResult.response ok body =>
      if ok then
        let json : JsData := JsData.jval body
        let pagEvents :=
          match body with
          | Json.obj fs =>
              if (lookupField fs "count").isSome && (lookupField fs "results").isSome then
                [paginationEvent (rootAttrsOf st1.root) qs fs]
              else []
          | _ => []
        let st2 := setData fm lookup st1 json
        (loading :: pagEvents ++
          [{ name := "data-loaded", bubbles := true, detail := EvDetail.loadedD json }],
         st2, Except.ok json)
      else
        -- The rejected promise object flows into setData and data-loaded is
        -- dispatched, but the async function's return statement then adopts
        -- the rejected promise: the promise handed to the caller rejects with
        -- the HTTP error.  Adoption happens after the try/catch, so no
        -- data-error is dispatched for this path.
        let st2 := setData fm lookup st1 JsData.promise
        ([loading,
          { name := "data-loaded", bubbles := true,
            detail := EvDetail.loadedD JsData.promise }],
         st2, Except.error ())
  | FetchResult.direct body =>
      let json : JsData := JsData.jval body
      let pagEvents :=
        match body with
        | Json.obj fs =>
            if (lookupField fs "count").isSome && (lookupField fs "results").isSome then
              [paginationEvent (rootAttrsOf st1.root) qs fs]
            else []
        | _ => []
      let st2 := setData fm lookup st1 json
      (loading :: pagEvents ++
        [{ name := "data-loaded", bubbles := true, detail := EvDetail.loadedD json }],
       st2, Except.ok json)

/-- An `AbortSignal`, opaque: only its identity matters. -/
structure Signal where
  id : Nat
  deriving DecidableEq

/-- The owning panel of a `Binder`, reduced to the piece the claims touch:
its `abortController.signal`. -/
structure Panel where
  abortSignal : Signal

/-- The call into the browser `fetch`: the request parameters and the abort
signal it carries. -/
structure FetchCall where
  params : QueryParams
  signal : Signal

/-- Modelled from the spec: `UserManager.fetchJson` (the user-session layer,
not under `src/`) — per §5 of the spec the only cancellation mechanism is
«an `AbortController` passed through to `fetch`», so the request and the
given signal are forwarded unchanged into the underlying fetch call. -/
def fetchJson (params : QueryParams) (signal : Signal) : FetchCall :=
  { params := params, signal := signal }

/-- `Binder` instance state: the URL's query parameters (the Binder mutates
its stored `URL` in place), the root subtree, the payload slot. -/
structure BState where
  url : String
  urlParams : QueryParams
  rootEl : Node
  data : Option JsData

/-- `Binder.#setUrlParams` (binder.js lines 97-119): `null`-ish values
(modelled `none`) delete the parameter, others are set.  (String and array
values, which the claims never exercise, are out of the integer parameter
model.) -/
def bSetUrlParams (qs : QueryParams) (ps : List (String × Option Int)) : QueryParams :=
  ps.foldl
    (fun acc p =>
      match p.2 with
      | none => assocErase acc p.1
      | some v => setParam acc p.1 v)
    qs

/-- The `Binder` constructor (binder.js lines 55-74): throws when `url` is
falsy or `rootEl` is not an `Element`; otherwise stores configuration and
applies `options.urlParams` to the stored URL — no fetch, no rendering. -/
def binderNew (url : String) (urlParams0 : QueryParams) (rootEl : Option Node)
    (initParams : Option (List (String × Option Int))) : Except String BState :=
  if url = "" then Except.error "Binder requires a URL"
  else
    match rootEl with
    | none => Except.error "Binder requires a valid rootEl Element"
    | some r =>
        Except.ok
          { url := url,
            urlParams :=
              match initParams with
              | some ps => bSetUrlParams urlParams0 ps
              | none => urlParams0,
            rootEl := r, data := none }

/-- `Binder.setData` (binder.js lines 146-149): store and render; the
`offset` getter re-parses the stored URL's `offset` parameter with an
`|| '0'` default. -/
def bSetData (fm : Formatters) (st : BState) (d : JsData) : BState :=
  { st with data := some d,
            rootEl := bRender fm (offsetOf st.urlParams) (some d) st.rootEl }

/-- `Binder.fetchData` (binder.js lines 129-133): apply the call-time URL
parameters, issue `this.#panel.user.fetchJson(url, abortSignal)`, then
`setData` on the resulting JSON.  Returns the fetch call made and the new
state. -/
def fetchData (fm : Formatters) (panel : Panel) (st : BState)
    (ps : List (String × Option Int)) (json : JsData) : FetchCall × BState :=
  let qs := bSetUrlParams st.urlParams ps
  let st1 := { st with urlParams := qs }
  (fetchJson qs panel.abortSignal, bSetData fm st1 json)

end Zooy

namespace Zooy

/-! ## Helper lemmas -/

theorem assocFind_erase_ne {α : Type} (a : List (String × α)) (k k2 : String)
    (h : k2 ≠ k) : assocFind (assocErase a k) k2 = assocFind a k2 := by
  induction a with
  | nil => rfl
  | cons p rest ih =>
      have hk : k ≠ k2 := fun hh => h hh.symm
      by_cases hp : p.1 = k
      · have hp2 : p.1 ≠ k2 := by
          rw [hp]
          exact hk
        simp [assocErase, assocFind, hp, hp2, ih, hk]
      · by_cases hp2 : p.1 = k2
        · simp [assocErase, assocFind, hp, hp2, h]
        · simp [assocErase, assocFind, hp, hp2, ih, h]

theorem getAttr_eraseKey_ne (a : List (String × String)) (k k2 : String)
    (h : k2 ≠ k) : getAttr (eraseKey a k) k2 = getAttr a k2 :=
  assocFind_erase_ne a k k2 h

/-- Formatters and template lookup used by concrete witnesses: no custom
formatters, no templates in the document. -/
def wFm : Formatters := fun _ => none

/-- Empty template environment for witnesses. -/
def wLk : String → Option Node := fun _ => none

/-! ## C2 -/

/-- C2, counterexample: in `DataBinder.#getValue` with pagination offset 10,
the token `$index` for the item at position 0 resolves to 10, not 0 as the
claim states, and `$index1__paged` is not a special token at all — it falls
through to an ordinary (failing) path lookup. -/
theorem C2_counterexample :
    dbGetValue 10 (JsData.jval (Json.obj [])) "$index" 0 = some (Json.num 10)
      ∧ some (Json.num 10) ≠ some (Json.num 0)
      ∧ dbGetValue 10 (JsData.jval (Json.obj [])) "$index1__paged" 0 = none := by
  refine ⟨rfl, ?_, rfl⟩
  intro h
  have h2 : (10 : Int) = 0 := by
    have := Option.some.inj h
    injection this
  omega

/-- C2, amended: in `Binder.#getValue` the tokens resolve exactly as the
claim states ($index ↦ i, $index1 ↦ i+1, $index__paged ↦ offset+i,
$index1__paged ↦ offset+i+1); in `DataBinder.#getValue` only `$index` and
`$index1` are special and they already include the offset ($index ↦
offset+i, $index1 ↦ offset+i+1), while the `__paged` spellings are treated
as ordinary dotted paths. -/
theorem C2_special_tokens :
    (∀ (off : Int) (d : JsData) (i : Nat),
        bGetValue off d "$index" i = some (Json.num i))
    ∧ (∀ (off : Int) (d : JsData) (i : Nat),
        bGetValue off d "$index1" i = some (Json.num (i + 1)))
    ∧ (∀ (off : Int) (d : JsData) (i : Nat),
        bGetValue off d "$index__paged" i = some (Json.num (off + i)))
    ∧ (∀ (off : Int) (d : JsData) (i : Nat),
        bGetValue off d "$index1__paged" i = some (Json.num (off + i + 1)))
    ∧ (∀ (off : Int) (d : JsData) (i : Nat),
        dbGetValue off d "$index" i = some (Json.num (off + i)))
    ∧ (∀ (off : Int) (d : JsData) (i : Nat),
        dbGetValue off d "$index1" i = some (Json.num (off + i + 1)))
    ∧ (∀ (off : Int) (d : JsData) (i : Nat),
        dbGetValue off d "$index__paged" i = dataPathLookup d ["$index__paged"])
    ∧ (∀ (off : Int) (d : JsData) (i : Nat),
        dbGetValue off d "$index1__paged" i = dataPathLookup d ["$index1__paged"]) := by
  refine ⟨fun off d i => rfl, fun off d i => rfl, fun off d i => rfl, fun off d i => rfl,
    fun off d i => rfl, fun off d i => rfl, fun off d i => rfl, fun off d i => rfl⟩

/-! ## C8 -/

/-- C8: every request issued by `Binder.fetchData` carries the owning
panel's `abortController.signal` into the underlying fetch call (through
`UserManager.fetchJson`, modelled from the spec as a pass-through); the
rendering path (`setData`/`render`) takes no signal at all, as its
signature shows. -/
theorem C8_abort_signal_forwarded :
    ∀ (fm : Formatters) (panel : Panel) (st : BState)
      (ps : List (String × Option Int)) (json : JsData),
      (fetchData fm panel st ps json).1.signal = panel.abortSignal
        ∧ (fetchData fm panel st ps json).1
            = fetchJson (bSetUrlParams st.urlParams ps) panel.abortSignal := by
  intro fm panel st ps json
  exact ⟨rfl, rfl⟩

/-! ## C10 -/

/-- C10: both constructors reject a falsy `url` or a non-`Element` root
with an `Error`; on success the returned instance only stores
configuration: the payload slot is `null`, the offset 0, the root subtree
is exactly the one passed in (the DOM is untouched), and no fetch happens —
`dataBinderNew`/`binderNew` produce no fetch call and no events, as their
types show. -/
theorem C10_constructor_validation :
    (∀ root, dataBinderNew "" root = Except.error "DataBinder requires a URL")
    ∧ (∀ url, url ≠ "" →
        dataBinderNew url none = Except.error "DataBinder requires a valid root Element")
    ∧ (∀ url r, url ≠ "" →
        dataBinderNew url (some r)
          = Except.ok { url := url, root := r, data := none, offset := 0 })
    ∧ (∀ qs0 root ips, binderNew "" qs0 root ips = Except.error "Binder requires a URL")
    ∧ (∀ url qs0 ips, url ≠ "" →
        binderNew url qs0 none ips = Except.error "Binder requires a valid rootEl Element")
    ∧ (∀ url qs0 r, url ≠ "" →
        binderNew url qs0 (some r) none
          = Except.ok { url := url, urlParams := qs0, rootEl := r, data := none })
    ∧ (∀ url qs0 r ips, url ≠ "" →
        binderNew url qs0 (some r) (some ips)
          = Except.ok { url := url, urlParams := bSetUrlParams qs0 ips,
                        rootEl := r, data := none }) := by
  refine ⟨fun root => rfl, ?_, ?_, fun qs0 root ips => rfl, ?_, ?_, ?_⟩
  · intro url h
    simp [dataBinderNew, h]
  · intro url r h
    simp [dataBinderNew, h]
  · intro url qs0 ips h
    simp [binderNew, h]
  · intro url qs0 r h
    simp [binderNew, h]
  · intro url qs0 r ips h
    simp [binderNew, h]

/-- C10 witness: concrete constructor runs. -/
theorem C10_constructor_validation_witness :
    dataBinderNew "/api/users/" (some (Node.elem "DIV" [] "" [] []))
        = Except.ok { url := "/api/users/", root := Node.elem "DIV" [] "" [] [],
                      data := none, offset := 0 }
      ∧ binderNew "/api/users/" [("limit", 5)] (some (Node.elem "DIV" [] "" [] [])) none
        = Except.ok { url := "/api/users/", urlParams := [("limit", 5)],
                      rootEl := Node.elem "DIV" [] "" [] [], data := none } := by
  constructor
  · exact C10_constructor_validation.2.2.1 "/api/users/" (Node.elem "DIV" [] "" [] [])
      (by decide)
  · exact C10_constructor_validation.2.2.2.2.2.1 "/api/users/" [("limit", 5)]
      (Node.elem "DIV" [] "" [] []) (by decide)

end Zooy

namespace Zooy

/-! ## C4 -/

/-- Projection of the modelled `style.display`. -/
def displayOf : Node → String
  | Node.text _ => ""
  | Node.elem _ _ disp _ _ => disp

/-- C4: the simple-binding pass never mutates an element with an
ancestor-or-self `[data-bind-template]`: a marker-carrying element is
returned with its whole subtree untouched (first conjunct — this covers
every descendant, and the third conjunct covers a pass root carrying the
marker), and an element carrying none of the binding markers receives no
text/attribute/style assignment — only its children are recursed into
(second conjunct). -/
theorem C4_simple_pass_scope :
    (∀ (fm : Formatters) (off : Int) (d : JsData) (i : Nat) (ro ra : Bool)
       (tag : String) (a : List (String × String)) (disp : String)
       (ch ct : List Node),
        (getAttr a "data-bind-template").isSome →
        sbNode fm off d i ro ra (Node.elem tag a disp ch ct)
          = some (Node.elem tag a disp ch ct))
    ∧ (∀ (fm : Formatters) (off : Int) (d : JsData) (i : Nat) (ro ra : Bool)
       (tag : String) (a : List (String × String)) (disp : String)
       (ch ct : List Node),
        getAttr a "data-bind-attr" = none →
        getAttr a "data-bind" = none →
        getAttr a "data-bind-show-if" = none →
        getAttr a "data-bind-hide-if" = none →
        getAttr a "data-bind-template" = none →
        sbNode fm off d i ro ra (Node.elem tag a disp ch ct)
          = some (Node.elem tag a disp (sbNodes fm off d i ro ra ch) ct))
    ∧ (∀ (fm : Formatters) (off : Int) (d : JsData) (i : Nat) (ro ra : Bool)
       (tag : String) (a : List (String × String)) (disp : String)
       (ch ct : List Node),
        (getAttr a "data-bind-template").isSome →
        sbRoot fm off d i ro ra (Node.elem tag a disp ch ct)
          = Node.elem tag a disp ch ct) := by
  refine ⟨?_, ?_, ?_⟩
  · intro fm off d i ro ra tag a disp ch ct h
    simp [sbNode, h]
  · intro fm off d i ro ra tag a disp ch ct h1 h2 h3 h4 h5
    simp [sbNode, attrPass, bindPass, showIfPass, hideIfPass, h1, h2, h3, h4, h5]
  · intro fm off d i ro ra tag a disp ch ct h
    simp [sbRoot, h]

/-- C4 witness: a consumer subtree is untouched, a marker-less element only
recurses. -/
theorem C4_simple_pass_scope_witness :
    sbNode wFm 0 (JsData.jval (Json.obj [("x", Json.str "v")])) 0 false false
        (Node.elem "UL" [("data-bind-template", "t")] ""
          [Node.elem "LI" [("data-bind", "x")] "" [] []] [])
      = some (Node.elem "UL" [("data-bind-template", "t")] ""
          [Node.elem "LI" [("data-bind", "x")] "" [] []] [])
    ∧ sbNode wFm 0 (JsData.jval (Json.obj [("x", Json.str "v")])) 0 false false
        (Node.elem "DIV" [("class", "c")] "hidden"
          [Node.elem "H1" [("data-bind", "x")] "" [] []] [])
      = some (Node.elem "DIV" [("class", "c")] "hidden"
          (sbNodes wFm 0 (JsData.jval (Json.obj [("x", Json.str "v")])) 0 false false
            [Node.elem "H1" [("data-bind", "x")] "" [] []]) []) := by
  constructor
  · exact C4_simple_pass_scope.1 wFm 0 (JsData.jval (Json.obj [("x", Json.str "v")]))
      0 false false "UL" [("data-bind-template", "t")] ""
      [Node.elem "LI" [("data-bind", "x")] "" [] []] [] (by decide)
  · exact C4_simple_pass_scope.2.1 wFm 0 (JsData.jval (Json.obj [("x", Json.str "v")]))
      0 false false "DIV" [("class", "c")] "hidden"
      [Node.elem "H1" [("data-bind", "x")] "" [] []] []
      (by decide) (by decide) (by decide) (by decide) (by decide)

/-! ## C1 -/

mutual

/-- Every `data-bind-attr` value in the subtree parses into `attr:path`
pairs (`wfBindSpec`): on a colon-less binding the source throws a
`TypeError` from `undefined.split('.')` mid-render, which the total model
does not represent, so template content is required well-formed in this
sense. -/
def wfPathsNode : Node → Bool
  | Node.text _ => true
  | Node.elem _ a _ ch _ =>
      (match getAttr a "data-bind-attr" with
       | some s => wfBindSpec s
       | none => true) && wfPathsNodes ch

/-- `wfPathsNode` over a child list. -/
def wfPathsNodes : List Node → Bool
  | [] => true
  | n :: ns => wfPathsNode n && wfPathsNodes ns

end

/-- C1: a template consumer whose `data-bind-template` names an existing
`<template>` and whose resolved data slice is an array of length n has its
children replaced — the old children are cleared and exactly n bound clones
of the template content are appended, clone i being the content bound
recursively against item i (`renderItem`, which runs the full
simple-bindings pass with `removeOnCondition`/`removeAttributes`; per the
`!el.isConnected` guard, kept clone elements retain their
`data-bind-show-if`/`data-bind-hide-if` markers).  The content is required
well-formed (`wfPathsNodes`): a colon-less `data-bind-attr` binding makes
the source throw mid-render instead. -/
theorem C1_template_consumer_clones
    (fm : Formatters) (lookup : String → Option Node) (off : Int) (d : JsData)
    (tag : String) (a : List (String × String)) (disp : String)
    (ch ct : List Node) (tid : String) (ta : List (String × String))
    (tdisp : String) (tch tct : List Node) (items : List Json)
    (htid : getAttr a "data-bind-template" = some tid)
    (hne : tid ≠ "")
    (htpl : lookup tid = some (Node.elem "TEMPLATE" ta tdisp tch tct))
    (hslice : consumerSlice d (getAttr a "data-path") = some items)
    (hwfct : wfPathsNodes tct = true) :
    cpNode fm lookup off d (Node.elem tag a disp ch ct)
      = Node.elem tag a disp
          ((items.mapIdx fun i it => renderItem fm off tct it i).flatten) ct
    ∧ (items.mapIdx fun i it => renderItem fm off tct it i).length = items.length := by
  constructor
  · simp [cpNode, htid, hne, htpl, hslice]
  · simp

/-- C1 witness: a two-item array renders two clones in order. -/
theorem C1_template_consumer_clones_witness :
    cpNode wFm
        (fun s => if s = "t" then
          some (Node.elem "TEMPLATE" [("id", "t")] "" []
            [Node.elem "LI" [("data-bind", "name")] "" [] []]) else none)
        0 (JsData.jval (Json.obj [("results",
            Json.arr [Json.obj [("name", Json.str "a")],
                      Json.obj [("name", Json.str "b")]])]))
        (Node.elem "UL" [("data-bind-template", "t"), ("data-path", "results")] ""
          [Node.text "old"] [])
      = Node.elem "UL" [("data-bind-template", "t"), ("data-path", "results")] ""
          (([Json.obj [("name", Json.str "a")], Json.obj [("name", Json.str "b")]].mapIdx
            fun i it => renderItem wFm 0 [Node.elem "LI" [("data-bind", "name")] "" [] []] it i).flatten)
          [] :=
  (C1_template_consumer_clones wFm
    (fun s => if s = "t" then
      some (Node.elem "TEMPLATE" [("id", "t")] "" []
        [Node.elem "LI" [("data-bind", "name")] "" [] []]) else none)
    0 (JsData.jval (Json.obj [("results",
        Json.arr [Json.obj [("name", Json.str "a")],
                  Json.obj [("name", Json.str "b")]])]))
    "UL" [("data-bind-template", "t"), ("data-path", "results")] ""
    [Node.text "old"] [] "t" [("id", "t")] ""
    [] [Node.elem "LI" [("data-bind", "name")] "" [] []]
    [Json.obj [("name", Json.str "a")], Json.obj [("name", Json.str "b")]]
    rfl (by decide) rfl rfl rfl).1

end Zooy


namespace Zooy

/-! ## C3 -/

theorem getAttr_erase_bind_show (a : List (String × String)) :
    getAttr (eraseKey a "data-bind") "data-bind-show-if"
      = getAttr a "data-bind-show-if" :=
  getAttr_eraseKey_ne a "data-bind" "data-bind-show-if" (by decide)

theorem getAttr_erase_fmt_show (a : List (String × String)) :
    getAttr (eraseKey a "data-bind-format") "data-bind-show-if"
      = getAttr a "data-bind-show-if" :=
  getAttr_eraseKey_ne a "data-bind-format" "data-bind-show-if" (by decide)

theorem getAttr_erase_bind_hide (a : List (String × String)) :
    getAttr (eraseKey a "data-bind") "data-bind-hide-if"
      = getAttr a "data-bind-hide-if" :=
  getAttr_eraseKey_ne a "data-bind" "data-bind-hide-if" (by decide)

theorem getAttr_erase_fmt_hide (a : List (String × String)) :
    getAttr (eraseKey a "data-bind-format") "data-bind-hide-if"
      = getAttr a "data-bind-hide-if" :=
  getAttr_eraseKey_ne a "data-bind-format" "data-bind-hide-if" (by decide)

theorem getAttr_erase_show_hide (a : List (String × String)) :
    getAttr (eraseKey a "data-bind-show-if") "data-bind-hide-if"
      = getAttr a "data-bind-hide-if" :=
  getAttr_eraseKey_ne a "data-bind-show-if" "data-bind-hide-if" (by decide)

/-- The `[data-bind]` pass only strips its own markers: lookups of the
conditional attributes are unchanged on its output. -/
theorem bindPass_preserves_cond (fm : Formatters) (d : JsData)
    (gv : String → Option Json) (ra : Bool) (a : List (String × String))
    (ch : List Node) :
    getAttr (bindPass fm d gv ra a ch).1 "data-bind-show-if"
        = getAttr a "data-bind-show-if"
      ∧ getAttr (bindPass fm d gv ra a ch).1 "data-bind-hide-if"
        = getAttr a "data-bind-hide-if" := by
  unfold bindPass
  cases hdb : getAttr a "data-bind" with
  | none => exact ⟨rfl, rfl⟩
  | some p =>
      cases ra with
      | false => exact ⟨rfl, rfl⟩
      | true =>
          constructor
          · simp [getAttr_erase_fmt_show, getAttr_erase_bind_show]
          · simp [getAttr_erase_fmt_hide, getAttr_erase_bind_hide]

/-- C3, counterexample: the claim is false as stated on an element carrying
*both* conditional markers.  With `data-bind-show-if` and
`data-bind-hide-if` both looking up falsy values at root level, the show-if
pass sets `style.display` to `'none'` but the hide-if pass runs later and
recomputes it to the empty string (data-binder.js line 473), so the element
ends *visible* — the claim required it hidden with `display:'none'`. -/
theorem C3_counterexample :
    sbNode wFm 0 (JsData.jval (Json.obj [("a", Json.bool false), ("b", Json.bool false)]))
        0 false false
        (Node.elem "DIV" [("data-bind-show-if", "a"), ("data-bind-hide-if", "b")] "x" [] [])
      = some (Node.elem "DIV"
          [("data-bind-show-if", "a"), ("data-bind-hide-if", "b")] "" [] [])
    ∧ ("" : String) ≠ "none" := by
  exact ⟨rfl, by decide⟩

/-- C3, amended: conditional rendering as claimed, for every element
carrying exactly one of the two conditional markers (`a1` is its live
attribute list after the attribute pass); when both markers are present the
hide-if pass runs last and recomputes `style.display`, overriding the
show-if outcome (the counterexample).  A falsy `data-bind-show-if` (truthy
`data-bind-hide-if`) lookup removes the element when
`removeOnCondition = true` (the freshly cloned template-item mode) and sets
`style.display` to `'none'` in the root-level mode
(`removeOnCondition = false`); in the root-level mode a passing condition
restores `style.display` to the empty string. -/
theorem C3_conditional_rendering
    (fm : Formatters) (off : Int) (d : JsData) (i : Nat) (ra : Bool)
    (tag : String) (a a1 : List (String × String)) (disp : String)
    (ch ct : List Node)
    (hnt : getAttr a "data-bind-template" = none)
    (ha1 : attrPass (fun p => dbGetValue off d p i) ra a = a1)
    (hnt1 : getAttr a1 "data-bind-template" = none) :
    (∀ c, getAttr a1 "data-bind-show-if" = some c →
        truthy (dbGetValue off d c i) = false →
        sbNode fm off d i true ra (Node.elem tag a disp ch ct) = none)
    ∧ (∀ c, getAttr a1 "data-bind-show-if" = some c →
        getAttr a1 "data-bind-hide-if" = none →
        truthy (dbGetValue off d c i) = false →
        (sbNode fm off d i false ra (Node.elem tag a disp ch ct)).map displayOf
          = some "none")
    ∧ (∀ c, getAttr a1 "data-bind-show-if" = some c →
        getAttr a1 "data-bind-hide-if" = none →
        truthy (dbGetValue off d c i) = true →
        (sbNode fm off d i false ra (Node.elem tag a disp ch ct)).map displayOf
          = some "")
    ∧ (∀ c, getAttr a1 "data-bind-show-if" = none →
        getAttr a1 "data-bind-hide-if" = some c →
        truthy (dbGetValue off d c i) = true →
        sbNode fm off d i true ra (Node.elem tag a disp ch ct) = none)
    ∧ (∀ c, getAttr a1 "data-bind-show-if" = none →
        getAttr a1 "data-bind-hide-if" = some c →
        truthy (dbGetValue off d c i) = true →
        (sbNode fm off d i false ra (Node.elem tag a disp ch ct)).map displayOf
          = some "none")
    ∧ (∀ c, getAttr a1 "data-bind-show-if" = none →
        getAttr a1 "data-bind-hide-if" = some c →
        truthy (dbGetValue off d c i) = false →
        (sbNode fm off d i false ra (Node.elem tag a disp ch ct)).map displayOf
          = some "") := by
  have hsome : (getAttr a "data-bind-template").isSome = false := by simp [hnt]
  have hsome1 : (getAttr a1 "data-bind-template").isSome = false := by simp [hnt1]
  obtain ⟨hbshow, hbhide⟩ :=
    bindPass_preserves_cond fm d (fun p => dbGetValue off d p i) ra a1 ch
  refine ⟨?_, ?_, ?_, ?_, ?_, ?_⟩
  -- 1: show-if falsy, clone mode: removed
  · intro c hshow hfal
    simp only [sbNode, hsome, hsome1, ha1, Bool.false_eq_true, if_false]
    rcases hc : bindPass fm d (fun p => dbGetValue off d p i) ra a1 ch with ⟨a2, ch2, db⟩
    have h2 : getAttr a2 "data-bind-show-if" = some c := by
      rw [hc] at hbshow
      simpa [hbshow] using hshow
    simp [showIfPass, h2, hfal]
  -- 2: show-if falsy, root mode: display none
  · intro c hshow hhide hfal
    simp only [sbNode, hsome, hsome1, ha1, Bool.false_eq_true, if_false]
    rcases hc : bindPass fm d (fun p => dbGetValue off d p i) ra a1 ch with ⟨a2, ch2, db⟩
    have h2 : getAttr a2 "data-bind-show-if" = some c := by
      rw [hc] at hbshow
      simpa [hbshow] using hshow
    have h2h : getAttr a2 "data-bind-hide-if" = none := by
      rw [hc] at hbhide
      simpa [hbhide] using hhide
    simp [showIfPass, h2, hfal, hideIfPass, h2h, displayOf]
  -- 3: show-if truthy, root mode: display restored
  · intro c hshow hhide htru
    simp only [sbNode, hsome, hsome1, ha1, Bool.false_eq_true, if_false]
    rcases hc : bindPass fm d (fun p => dbGetValue off d p i) ra a1 ch with ⟨a2, ch2, db⟩
    have h2 : getAttr a2 "data-bind-show-if" = some c := by
      rw [hc] at hbshow
      simpa [hbshow] using hshow
    have h2h : getAttr a2 "data-bind-hide-if" = none := by
      rw [hc] at hbhide
      simpa [hbhide] using hhide
    simp [showIfPass, h2, htru, hideIfPass, h2h, displayOf]
  -- 4: hide-if truthy, clone mode: removed
  · intro c hshow hhide htru
    simp only [sbNode, hsome, hsome1, ha1, Bool.false_eq_true, if_false]
    rcases hc : bindPass fm d (fun p => dbGetValue off d p i) ra a1 ch with ⟨a2, ch2, db⟩
    have h2 : getAttr a2 "data-bind-show-if" = none := by
      rw [hc] at hbshow
      simpa [hbshow] using hshow
    have h2h : getAttr a2 "data-bind-hide-if" = some c := by
      rw [hc] at hbhide
      simpa [hbhide] using hhide
    simp [showIfPass, h2, hideIfPass, h2h, htru]
  -- 5: hide-if truthy, root mode: display none
  · intro c hshow hhide htru
    simp only [sbNode, hsome, hsome1, ha1, Bool.false_eq_true, if_false]
    rcases hc : bindPass fm d (fun p => dbGetValue off d p i) ra a1 ch with ⟨a2, ch2, db⟩
    have h2 : getAttr a2 "data-bind-show-if" = none := by
      rw [hc] at hbshow
      simpa [hbshow] using hshow
    have h2h : getAttr a2 "data-bind-hide-if" = some c := by
      rw [hc] at hbhide
      simpa [hbhide] using hhide
    simp [showIfPass, h2, hideIfPass, h2h, htru, displayOf]
  -- 6: hide-if falsy, root mode: display restored
  · intro c hshow hhide hfal
    simp only [sbNode, hsome, hsome1, ha1, Bool.false_eq_true, if_false]
    rcases hc : bindPass fm d (fun p => dbGetValue off d p i) ra a1 ch with ⟨a2, ch2, db⟩
    have h2 : getAttr a2 "data-bind-show-if" = none := by
      rw [hc] at hbshow
      simpa [hbshow] using hshow
    have h2h : getAttr a2 "data-bind-hide-if" = some c := by
      rw [hc] at hbhide
      simpa [hbhide] using hhide
    simp [showIfPass, h2, hideIfPass, h2h, hfal, displayOf]

/-- C3 witness: concrete show-if and hide-if runs in both modes. -/
theorem C3_conditional_rendering_witness :
    sbNode wFm 0 (JsData.jval (Json.obj [("act", Json.bool false)])) 0 true true
        (Node.elem "DIV" [("data-bind-show-if", "act")] "" [] []) = none
    ∧ (sbNode wFm 0 (JsData.jval (Json.obj [("act", Json.bool false)])) 0 false false
        (Node.elem "DIV" [("data-bind-show-if", "act")] "" [] [])).map displayOf
        = some "none"
    ∧ (sbNode wFm 0 (JsData.jval (Json.obj [("act", Json.bool true)])) 0 false false
        (Node.elem "DIV" [("data-bind-show-if", "act")] "none" [] [])).map displayOf
        = some ""
    ∧ (sbNode wFm 0 (JsData.jval (Json.obj [("gone", Json.bool true)])) 0 false false
        (Node.elem "DIV" [("data-bind-hide-if", "gone")] "" [] [])).map displayOf
        = some "none" := by
  refine ⟨?_, ?_, ?_, ?_⟩
  · exact (C3_conditional_rendering wFm 0 (JsData.jval (Json.obj [("act", Json.bool false)]))
      0 true "DIV" [("data-bind-show-if", "act")] [("data-bind-show-if", "act")] "" [] []
      rfl rfl rfl).1 "act" rfl rfl
  · exact (C3_conditional_rendering wFm 0 (JsData.jval (Json.obj [("act", Json.bool false)]))
      0 false "DIV" [("data-bind-show-if", "act")] [("data-bind-show-if", "act")] "" [] []
      rfl rfl rfl).2.1 "act" rfl rfl rfl
  · exact (C3_conditional_rendering wFm 0 (JsData.jval (Json.obj [("act", Json.bool true)]))
      0 false "DIV" [("data-bind-show-if", "act")] [("data-bind-show-if", "act")] "none" [] []
      rfl rfl rfl).2.2.1 "act" rfl rfl rfl
  · exact (C3_conditional_rendering wFm 0 (JsData.jval (Json.obj [("gone", Json.bool true)]))
      0 false "DIV" [("data-bind-hide-if", "gone")] [("data-bind-hide-if", "gone")] "" [] []
      rfl rfl rfl).2.2.2.2.1 "gone" rfl rfl rfl

end Zooy

namespace Zooy

/-! ## C9 -/

/-- C9: whenever the JSON handed to `DataBinder.getData` has both a `count`
and a `results` key, a bubbling `CustomEvent` — named by the root's
`data-pagination-event` attribute, defaulting to `data-pagination` — is
dispatched between `data-loading` and `data-loaded` (hence before `setData`
renders the payload), and its detail carries limit = the parsed `limit`
parameter or 100 when absent, offset = the parsed `offset` parameter or 0
when absent (both from the request URL; `l` and `o` are those resolved
values, and the first two conjuncts establish the defaults), page and
totalPages characterized by the floor/ceil inequalities
`limit·(page−1) ≤ offset < limit·page` and
`limit·(totalPages−1) < count ≤ limit·totalPages`, and
hasNext/hasPrevious exactly when `next`/`previous` are not `null` (an
absent key is `undefined`, which also passes the strict `!== null`
test). -/
theorem C9_pagination_event
    (fm : Formatters) (lookup : String → Option Node) (st : DBState)
    (base params : QueryParams) (fs : List (String × Json)) (c l o : Int)
    (hql : limitResolved (mergeParams base params) = l) (hl : 0 < l)
    (hqo : offsetOf (mergeParams base params) = o)
    (hcount : lookupField fs "count" = some (Json.num c))
    (hres : (lookupField fs "results").isSome = true) :
    (findParam (mergeParams base params) "limit" = none → l = 100)
    ∧ (findParam (mergeParams base params) "offset" = none → o = 0)
    ∧ ∃ page totalPages : Int,
      (getData fm lookup st base params (FetchResult.response true (Json.obj fs))).1
        = [{ name := "data-loading", bubbles := true, detail := EvDetail.plain },
           { name :=
               (match getAttr (rootAttrsOf st.root) "data-pagination-event" with
                | some s => if s = "" then "data-pagination" else s
                | none => "data-pagination"),
             bubbles := true,
             detail := EvDetail.pagination (some (Json.num c)) (lookupField fs "next")
               (lookupField fs "previous") l o page (some totalPages)
               (isNotNull (lookupField fs "next"))
               (isNotNull (lookupField fs "previous")) },
           { name := "data-loaded", bubbles := true,
             detail := EvDetail.loadedD (JsData.jval (Json.obj fs)) }]
      ∧ l * (page - 1) ≤ o ∧ o < l * page
      ∧ l * (totalPages - 1) < c ∧ c ≤ l * totalPages := by
  have hlne : l ≠ 0 := by omega
  have hl0 : l ≠ 0 ∧ (0 : Int) ≤ l := ⟨hlne, by omega⟩
  refine ⟨?_, ?_, jsFloorDiv o l + 1, jsCeilDiv c l, ?_, ?_, ?_, ?_, ?_⟩
  · intro habs
    rw [← hql]
    simp [limitResolved, habs]
  · intro habs
    rw [← hqo]
    simp [offsetOf, habs]
  · simp [getData, hcount, hres, paginationEvent, hql, hqo, hcount, setData]
  · have hfd : jsFloorDiv o l = o / l := by
      simp [jsFloorDiv, Int.fdiv_eq_ediv o hl0.2]
    have h1 := Int.ediv_add_emod o l
    have h2 := Int.emod_nonneg o hlne
    have hq : l * ((jsFloorDiv o l + 1) - 1) = l * (o / l) := by
      rw [hfd]; ring
    rw [hq]
    omega
  · have hfd : jsFloorDiv o l = o / l := by
      simp [jsFloorDiv, Int.fdiv_eq_ediv o hl0.2]
    have h1 := Int.ediv_add_emod o l
    have h3 := Int.emod_lt_of_pos o hl
    have hq : l * (jsFloorDiv o l + 1) = l * (o / l) + l := by
      rw [hfd]; ring
    rw [hq]
    omega
  · have hfd : jsCeilDiv c l = -((-c) / l) := by
      simp [jsCeilDiv, Int.fdiv_eq_ediv (-c) hl0.2]
    have h1 := Int.ediv_add_emod (-c) l
    have h3 := Int.emod_lt_of_pos (-c) hl
    have hq : l * (jsCeilDiv c l - 1) = -(l * ((-c) / l)) - l := by
      rw [hfd]; ring
    rw [hq]
    omega
  · have hfd : jsCeilDiv c l = -((-c) / l) := by
      simp [jsCeilDiv, Int.fdiv_eq_ediv (-c) hl0.2]
    have h1 := Int.ediv_add_emod (-c) l
    have h2 := Int.emod_nonneg (-c) hlne
    have hq : l * jsCeilDiv c l = -(l * ((-c) / l)) := by
      rw [hfd]; ring
    rw [hq]
    omega

/-- C9 witness: a parameterless fetch — both query parameters absent — so
the defaults apply (limit 100, offset 0); count 250 gives page 1 of 3, a
next page and no previous. -/
theorem C9_pagination_event_witness :
    (100 : Int) = 100 ∧ (0 : Int) = 0
    ∧ ∃ page totalPages : Int,
      (getData wFm wLk
          { url := "u", root := Node.elem "DIV" [] "" [] [], data := none, offset := 0 }
          [] []
          (FetchResult.response true (Json.obj
            [("count", Json.num 250), ("next", Json.str "u2"),
             ("previous", Json.null), ("results", Json.arr [])]))).1
        = [{ name := "data-loading", bubbles := true, detail := EvDetail.plain },
           { name := "data-pagination", bubbles := true,
             detail := EvDetail.pagination (some (Json.num 250)) (some (Json.str "u2"))
               (some Json.null) 100 0 page (some totalPages) true false },
           { name := "data-loaded", bubbles := true,
             detail := EvDetail.loadedD (JsData.jval (Json.obj
               [("count", Json.num 250), ("next", Json.str "u2"),
                ("previous", Json.null), ("results", Json.arr [])])) }]
      ∧ 100 * (page - 1) ≤ 0 ∧ (0 : Int) < 100 * page
      ∧ 100 * (totalPages - 1) < 250 ∧ (250 : Int) ≤ 100 * totalPages := by
  obtain ⟨h1, h2, page, totalPages, h⟩ := C9_pagination_event wFm wLk
    { url := "u", root := Node.elem "DIV" [] "" [] [], data := none, offset := 0 }
    [] []
    [("count", Json.num 250), ("next", Json.str "u2"),
     ("previous", Json.null), ("results", Json.arr [])]
    250 100 0 rfl (by omega) rfl rfl rfl
  exact ⟨h1 rfl, h2 rfl, page, totalPages, h⟩

end Zooy

namespace Zooy

/-! ## C6 -/

/-- C6, counterexample: a rejected fetch in `DataBinder.getData` does
dispatch `data-error`, but the catch block then *re-throws* (data-binder.js
line 326), so a structured failure does propagate to the caller — the
returned promise rejects — contradicting the claim's «continuation without
propagating a structured failure to the caller». -/
theorem C6_counterexample :
    (getData wFm wLk
        { url := "u", root := Node.elem "DIV" [] "" [] [], data := none, offset := 0 }
        [] [] FetchResult.reject).1
      = [{ name := "data-loading", bubbles := true, detail := EvDetail.plain },
         { name := "data-error", bubbles := true, detail := EvDetail.errorD }]
    ∧ (getData wFm wLk
        { url := "u", root := Node.elem "DIV" [] "" [] [], data := none, offset := 0 }
        [] [] FetchResult.reject).2.2
      = Except.error () := by
  exact ⟨rfl, rfl⟩

/-- C6, amended: consumer-level failures are logged and skipped with
best-effort continuation — an empty template id, an unresolvable or
non-`<template>` target, and a non-array data slice each leave the consumer
element itself untouched (only nested consumers from the static list are
still processed) while the pass over a sibling list treats every consumer
independently (it is a per-node map).  A rejected fetch dispatches
`data-error` and then *re-throws* to the caller, leaving the stored payload
unchanged (only the pre-parsed offset was already updated).  A non-OK HTTP
response dispatches no `data-error`: the unawaited rejected promise flows
into `setData`, is rendered against, and `data-loaded` is dispatched anyway
— but the async `return` adopts the rejected promise, so the promise the
caller receives still rejects with the HTTP error. -/
theorem C6_error_handling :
    (∀ (fm : Formatters) (lookup : String → Option Node) (off : Int) (d : JsData)
       (tag : String) (a : List (String × String)) (disp : String) (ch ct : List Node),
        getAttr a "data-bind-template" = some "" →
        cpNode fm lookup off d (Node.elem tag a disp ch ct)
          = Node.elem tag a disp (cpNodes fm lookup off d ch) ct)
    ∧ (∀ (fm : Formatters) (lookup : String → Option Node) (off : Int) (d : JsData)
       (tag : String) (a : List (String × String)) (disp : String) (ch ct : List Node)
       (tid : String),
        getAttr a "data-bind-template" = some tid → tid ≠ "" →
        lookup tid = none →
        cpNode fm lookup off d (Node.elem tag a disp ch ct)
          = Node.elem tag a disp (cpNodes fm lookup off d ch) ct)
    ∧ (∀ (fm : Formatters) (lookup : String → Option Node) (off : Int) (d : JsData)
       (tag : String) (a : List (String × String)) (disp : String) (ch ct : List Node)
       (tid ttag : String) (ta : List (String × String)) (tdisp : String)
       (tch tct : List Node),
        getAttr a "data-bind-template" = some tid → tid ≠ "" →
        lookup tid = some (Node.elem ttag ta tdisp tch tct) → ttag ≠ "TEMPLATE" →
        cpNode fm lookup off d (Node.elem tag a disp ch ct)
          = Node.elem tag a disp (cpNodes fm lookup off d ch) ct)
    ∧ (∀ (fm : Formatters) (lookup : String → Option Node) (off : Int) (d : JsData)
       (tag : String) (a : List (String × String)) (disp : String) (ch ct : List Node)
       (tid : String) (ta : List (String × String)) (tdisp : String) (tch tct : List Node),
        getAttr a "data-bind-template" = some tid → tid ≠ "" →
        lookup tid = some (Node.elem "TEMPLATE" ta tdisp tch tct) →
        consumerSlice d (getAttr a "data-path") = none →
        cpNode fm lookup off d (Node.elem tag a disp ch ct)
          = Node.elem tag a disp (cpNodes fm lookup off d ch) ct)
    ∧ (∀ (fm : Formatters) (lookup : String → Option Node) (off : Int) (d : JsData)
       (l : List Node),
        cpNodes fm lookup off d l = l.map (cpNode fm lookup off d))
    ∧ (∀ (fm : Formatters) (lookup : String → Option Node) (st : DBState)
       (base params : QueryParams),
        getData fm lookup st base params FetchResult.reject
          = ([{ name := "data-loading", bubbles := true, detail := EvDetail.plain },
              { name := "data-error", bubbles := true, detail := EvDetail.errorD }],
             { st with offset := offsetOf (mergeParams base params) },
             Except.error ()))
    ∧ (∀ (fm : Formatters) (lookup : String → Option Node) (st : DBState)
       (base params : QueryParams) (body : Json),
        getData fm lookup st base params (FetchResult.response false body)
          = ([{ name := "data-loading", bubbles := true, detail := EvDetail.plain },
              { name := "data-loaded", bubbles := true,
                detail := EvDetail.loadedD JsData.promise }],
             setData fm lookup { st with offset := offsetOf (mergeParams base params) }
               JsData.promise,
             Except.error ())) := by
  refine ⟨?_, ?_, ?_, ?_, ?_, ?_, ?_⟩
  · intro fm lookup off d tag a disp ch ct h
    simp [cpNode, h]
  · intro fm lookup off d tag a disp ch ct tid h hne hl
    simp [cpNode, h, hne, hl]
  · intro fm lookup off d tag a disp ch ct tid ttag ta tdisp tch tct h hne hl ht
    simp [cpNode, h, hne, hl, ht]
  · intro fm lookup off d tag a disp ch ct tid ta tdisp tch tct h hne hl hs
    simp [cpNode, h, hne, hl, hs]
  · intro fm lookup off d l
    induction l with
    | nil => rfl
    | cons n ns ih => simp [cpNodes, ih]
  · intro fm lookup st base params
    rfl
  · intro fm lookup st base params body
    rfl

/-- C6 witness: each consumer-failure mode on a concrete tree, plus a
concrete non-OK response run. -/
theorem C6_error_handling_witness :
    cpNode wFm wLk 0 (JsData.jval (Json.obj []))
        (Node.elem "UL" [("data-bind-template", "missing")] "" [Node.text "keep"] [])
      = Node.elem "UL" [("data-bind-template", "missing")] ""
          (cpNodes wFm wLk 0 (JsData.jval (Json.obj [])) [Node.text "keep"]) []
    ∧ cpNode wFm (fun s => if s = "t" then
          some (Node.elem "TEMPLATE" [("id", "t")] "" [] []) else none)
        0 (JsData.jval (Json.obj [("x", Json.num 1)]))
        (Node.elem "UL" [("data-bind-template", "t"), ("data-path", "x")] ""
          [Node.text "keep"] [])
      = Node.elem "UL" [("data-bind-template", "t"), ("data-path", "x")] ""
          (cpNodes wFm (fun s => if s = "t" then
              some (Node.elem "TEMPLATE" [("id", "t")] "" [] []) else none)
            0 (JsData.jval (Json.obj [("x", Json.num 1)])) [Node.text "keep"]) []
    ∧ (getData wFm wLk
        { url := "u", root := Node.elem "DIV" [] "" [] [], data := none, offset := 0 }
        [] [] (FetchResult.response false (Json.obj []))).1
      = [{ name := "data-loading", bubbles := true, detail := EvDetail.plain },
         { name := "data-loaded", bubbles := true,
           detail := EvDetail.loadedD JsData.promise }] := by
  refine ⟨?_, ?_, ?_⟩
  · exact C6_error_handling.2.1 wFm wLk 0 (JsData.jval (Json.obj []))
      "UL" [("data-bind-template", "missing")] "" [Node.text "keep"] [] "missing"
      rfl (by decide) rfl
  · exact C6_error_handling.2.2.2.1 wFm
      (fun s => if s = "t" then some (Node.elem "TEMPLATE" [("id", "t")] "" [] []) else none)
      0 (JsData.jval (Json.obj [("x", Json.num 1)]))
      "UL" [("data-bind-template", "t"), ("data-path", "x")] "" [Node.text "keep"] []
      "t" [("id", "t")] "" [] [] rfl (by decide) rfl rfl
  · have h := C6_error_handling.2.2.2.2.2.2 wFm wLk
      { url := "u", root := Node.elem "DIV" [] "" [] [], data := none, offset := 0 }
      [] [] (Json.obj [])
    rw [h]

end Zooy

namespace Zooy

/-! ## C7 -/

/-- A `<template>` that is *not* a sibling of the consumer below: the
consumer sits one level deeper than the template. -/
def c7tpl : Node :=
  Node.elem "TEMPLATE" [("id", "t1")] "" [] [Node.elem "LI" [("zoo-bind", "name")] "" [] []]

/-- The repeat-anchor; its only sibling list is `[c7consumer]` itself
(it is the single child of `c7parent`). -/
def c7consumer : Node := Node.elem "UL" [("zoo-template", "t1")] "" [] []

/-- Wrapper element: the consumer's parent. -/
def c7parent : Node := Node.elem "DIV" [] "" [c7consumer] []

/-- Binder root: the template is a child of the root, an «uncle» of the
consumer, not its sibling. -/
def c7root : Node := Node.elem "DIV" [] "" [c7parent, c7tpl] []

/-- One-item array payload for the C7 trees. -/
def c7data : JsData := JsData.jval (Json.arr [Json.obj [("name", Json.str "x")]])

/-- C7, counterexample: the Binder's consumer pass on `c7root` clones the
template `t1` into the consumer even though the consumer's sibling list
(`[c7consumer]`, the children of its parent) contains no `<template>` at
all — the template is located by a root-wide id lookup
(`rootEl.querySelector('#t1')`), not as a sibling, so the claim's sibling
condition is false on this input. -/
theorem C7_counterexample :
    bRenderTemplateConsumers wFm 0 c7data c7root
      = Node.elem "DIV" [] ""
          [Node.elem "DIV" [] ""
            [Node.elem "UL" [("zoo-template", "t1")] ""
              [Node.elem "LI" [] "" [Node.text "x"] []] []] [],
           c7tpl] []
    ∧ specSiblingTemplate [c7consumer] "t1" = none := by
  exact ⟨rfl, rfl⟩

/-- DataBinder document for the amended claim: the template lives outside
the binder's root entirely. -/
def c7dtpl : Node :=
  Node.elem "TEMPLATE" [("id", "t2")] "" [] [Node.elem "LI" [("data-bind", "name")] "" [] []]

/-- DataBinder root: contains only the consumer. -/
def c7droot : Node :=
  Node.elem "DIV" [] "" [Node.elem "UL" [("data-bind-template", "t2")] "" [] []] []

/-- The document: binder root and template are siblings under `BODY`. -/
def c7doc : Node := Node.elem "BODY" [] "" [c7droot, c7dtpl] []

/-- C7, amended: the template cloned for a repeat-anchor is located by id —
`document.getElementById(templateId)` for `DataBinder`, and the first id
match under the binder's root (`rootEl.querySelector('#' + templateId)`)
for `Binder` — with no sibling requirement.  First conjunct: for any
consumer under any Binder root, the template used is exactly
`querySelectorId root templateId`, wherever in the root's subtree it sits.
Second conjunct: a DataBinder renders from a template that is entirely
outside its root, found document-wide. -/
theorem C7_template_lookup_by_id :
    (∀ (fm : Formatters) (off : Int) (d : JsData) (root : Node) (tag : String)
       (a : List (String × String)) (disp : String) (ch ct : List Node)
       (tid : String) (ta : List (String × String)) (tdisp : String)
       (tch tct : List Node) (items : List Json),
        getAttr a "zoo-template" = some tid → tid ≠ "" →
        querySelectorId root tid = some (Node.elem "TEMPLATE" ta tdisp tch tct) →
        bConsumerSlice d (getAttr a "zoo-template-bind") = some items →
        bCpNode fm (querySelectorId root) off d (Node.elem tag a disp ch ct)
          = Node.elem tag a disp
              ((items.mapIdx fun i it => bRenderItem fm off tct it i).flatten) ct)
    ∧ render wFm (fun s => getElementById s c7doc) 0 c7data c7droot
      = Node.elem "DIV" [] ""
          [Node.elem "UL" [("data-bind-template", "t2")] ""
            [Node.elem "LI" [] "" [Node.text "x"] []] []] [] := by
  constructor
  · intro fm off d root tag a disp ch ct tid ta tdisp tch tct items h hne htpl hs
    simp [bCpNode, h, hne, htpl, hs]
  · rfl

/-- C7 witness: the first conjunct of the amended claim applied to the
concrete non-sibling tree. -/
theorem C7_template_lookup_by_id_witness :
    bCpNode wFm (querySelectorId c7root) 0 c7data c7consumer
      = Node.elem "UL" [("zoo-template", "t1")] ""
          (([Json.obj [("name", Json.str "x")]].mapIdx
            fun i it => bRenderItem wFm 0
              [Node.elem "LI" [("zoo-bind", "name")] "" [] []] it i).flatten) [] :=
  C7_template_lookup_by_id.1 wFm 0 c7data c7root "UL" [("zoo-template", "t1")] "" [] []
    "t1" [("id", "t1")] "" [] [Node.elem "LI" [("zoo-bind", "name")] "" [] []]
    [Json.obj [("name", Json.str "x")]] rfl (by decide) rfl rfl

end Zooy

namespace Zooy

/-! ## C5: attribute-write algebra -/

/-- Erase every binding whose key is in `ks`. -/
def eraseKeys (a : List (String × String)) (ks : List String) :
    List (String × String) :=
  a.filter (fun p => decide (p.1 ∉ ks))

theorem eraseKeys_nil (a : List (String × String)) : eraseKeys a [] = a := by
  simp [eraseKeys]

theorem eraseKeys_append (a b : List (String × String)) (ks : List String) :
    eraseKeys (a ++ b) ks = eraseKeys a ks ++ eraseKeys b ks := by
  simp [eraseKeys]

theorem assocErase_eq_filter (a : List (String × String)) (k : String) :
    assocErase a k = a.filter (fun p => decide (p.1 ≠ k)) := by
  induction a with
  | nil => rfl
  | cons p rest ih =>
      by_cases hp : p.1 = k
      · simp [assocErase, hp, ih]
      · simp [assocErase, hp, ih]

theorem eraseKeys_assocErase (a : List (String × String)) (k : String)
    (ks : List String) :
    eraseKeys (assocErase a k) ks = eraseKeys a (k :: ks) := by
  rw [assocErase_eq_filter]
  simp only [eraseKeys, List.filter_filter]
  apply List.filter_congr
  intro p _
  by_cases h1 : p.1 = k
  · simp [h1]
  · simp [h1]

theorem eraseKeys_idem (a : List (String × String)) (ks : List String) :
    eraseKeys (eraseKeys a ks) ks = eraseKeys a ks := by
  simp only [eraseKeys, List.filter_filter]
  apply List.filter_congr
  intro p hp
  by_cases h : p.1 ∈ ks
  · simp [h]
  · simp [h]

theorem applyOps_decomp (ops : List (String × String)) :
    ∀ a, applyOps a ops = eraseKeys a (ops.map Prod.fst) ++ applyOps [] ops := by
  induction ops with
  | nil => intro a; simp [applyOps, eraseKeys_nil]
  | cons q rest ih =>
      intro a
      have h1 : applyOps a (q :: rest) = applyOps (setAttr a q.1 q.2) rest := rfl
      have h2 : applyOps [] (q :: rest) = applyOps [(q.1, q.2)] rest := rfl
      rw [h1, h2, ih (setAttr a q.1 q.2), ih [(q.1, q.2)]]
      simp only [setAttr, eraseKey]
      rw [eraseKeys_append, eraseKeys_assocErase]
      simp [List.append_assoc]

theorem applyOps_keys_subset (ops : List (String × String)) :
    ∀ p ∈ applyOps [] ops, p.1 ∈ ops.map Prod.fst := by
  induction ops with
  | nil => intro p hp; cases hp
  | cons q rest ih =>
      intro p hp
      have h2 : applyOps [] (q :: rest) = applyOps [(q.1, q.2)] rest := rfl
      rw [h2, applyOps_decomp rest [(q.1, q.2)]] at hp
      rcases List.mem_append.mp hp with h | h
      · simp only [eraseKeys, List.mem_filter, List.mem_singleton] at h
        simp [h.1]
      · simp [ih p h]

theorem eraseKeys_self (ops : List (String × String)) :
    eraseKeys (applyOps [] ops) (ops.map Prod.fst) = [] := by
  apply List.filter_eq_nil_iff.mpr
  intro p hp
  have := applyOps_keys_subset ops p hp
  simp [this]

theorem applyOps_idem (a : List (String × String)) (ops : List (String × String)) :
    applyOps (applyOps a ops) ops = applyOps a ops := by
  rw [applyOps_decomp ops a, applyOps_decomp ops (eraseKeys a (ops.map Prod.fst) ++ applyOps [] ops)]
  rw [eraseKeys_append, eraseKeys_idem, eraseKeys_self]
  simp

theorem assocFind_filter_notin (a : List (String × String)) (ks : List String)
    (k : String) (hk : k ∉ ks) :
    assocFind (eraseKeys a ks) k = assocFind a k := by
  induction a with
  | nil => rfl
  | cons p rest ih =>
      simp only [eraseKeys, decide_not] at ih ⊢
      rw [List.filter_cons]
      by_cases hp : p.1 ∈ ks
      · have hp2 : p.1 ≠ k := fun h => hk (h ▸ hp)
        simp [hp, assocFind, hp2, ih]
      · by_cases hp2 : p.1 = k
        · simp [hp, hp2, hk, assocFind]
        · simp [hp, hp2, assocFind, ih]

theorem assocFind_append (a b : List (String × String)) (k : String) :
    assocFind (a ++ b) k
      = match assocFind a k with
        | some v => some v
        | none => assocFind b k := by
  induction a with
  | nil => rfl
  | cons p rest ih =>
      by_cases hp : p.1 = k
      · simp [assocFind, hp]
      · simp [assocFind, hp, ih]

theorem assocFind_none_of_keys (l : List (String × String)) (k : String)
    (h : ∀ p ∈ l, p.1 ≠ k) : assocFind l k = none := by
  induction l with
  | nil => rfl
  | cons p rest ih =>
      simp only [assocFind, h p (List.mem_cons_self p rest), if_false]
      exact ih fun q hq => h q (List.mem_cons_of_mem p hq)

/-- Lookups of keys outside the write targets are unchanged by the write
fold. -/
theorem applyOps_getAttr_notin (a : List (String × String))
    (ops : List (String × String)) (k : String) (hk : k ∉ ops.map Prod.fst) :
    getAttr (applyOps a ops) k = getAttr a k := by
  rw [applyOps_decomp ops a]
  unfold getAttr
  rw [assocFind_append]
  have hS : assocFind (applyOps [] ops) k = none := by
    apply assocFind_none_of_keys
    intro p hp hpk
    exact hk (hpk ▸ applyOps_keys_subset ops p hp)
  rw [assocFind_filter_notin a (ops.map Prod.fst) k hk, hS]
  cases assocFind a k <;> rfl

end Zooy

namespace Zooy

/-! ## C5: the root-mode simple-bindings pass as a total function -/

/-- `style.display` after the show-if pass in root mode (no removal, no
attribute stripping). -/
def showKeptDisp (gv : String → Option Json) (a : List (String × String))
    (disp : String) : String :=
  match getAttr a "data-bind-show-if" with
  | none => disp
  | some c => if truthy (gv c) then "" else "none"

/-- `style.display` after the hide-if pass in root mode. -/
def hideKeptDisp (gv : String → Option Json) (a : List (String × String))
    (disp : String) : String :=
  match getAttr a "data-bind-hide-if" with
  | none => disp
  | some c => if truthy (gv c) then "none" else ""

theorem showIfPass_root (gv : String → Option Json) (a : List (String × String))
    (disp : String) :
    showIfPass gv false false a disp = CondResult.kept a (showKeptDisp gv a disp) := by
  unfold showIfPass showKeptDisp
  cases getAttr a "data-bind-show-if" with
  | none => rfl
  | some c => cases h : truthy (gv c) <;> simp [h]

theorem hideIfPass_root (gv : String → Option Json) (a : List (String × String))
    (disp : String) :
    hideIfPass gv false false a disp = CondResult.kept a (hideKeptDisp gv a disp) := by
  unfold hideIfPass hideKeptDisp
  cases getAttr a "data-bind-hide-if" with
  | none => rfl
  | some c => cases h : truthy (gv c) <;> simp [h]

/-- Re-running the two root-mode display updates is stable. -/
theorem dispUpdate_idem (gv : String → Option Json) (a : List (String × String))
    (x : String) :
    hideKeptDisp gv a (showKeptDisp gv a (hideKeptDisp gv a (showKeptDisp gv a x)))
      = hideKeptDisp gv a (showKeptDisp gv a x) := by
  unfold hideKeptDisp showKeptDisp
  cases getAttr a "data-bind-show-if" with
  | none =>
      cases getAttr a "data-bind-hide-if" with
      | none => rfl
      | some c2 => cases truthy (gv c2) <;> rfl
  | some c =>
      cases getAttr a "data-bind-hide-if" with
      | none => cases truthy (gv c) <;> rfl
      | some c2 => cases truthy (gv c) <;> cases truthy (gv c2) <;> rfl

/-- The text assigned by the `[data-bind]` pass: value lookup, optional
formatter, `?? ''` defaulting. -/
def bindText (fm : Formatters) (d : JsData) (gv : String → Option Json)
    (a : List (String × String)) (p : String) : String :=
  jsTextContent
    (match getAttr a "data-bind-format" with
     | some f =>
         if f = "" then gv p
         else
           match fm f with
           | some F => F (gv p) d
           | none => gv p
     | none => gv p)

theorem bindPass_root (fm : Formatters) (d : JsData) (gv : String → Option Json)
    (a : List (String × String)) (ch : List Node) :
    bindPass fm d gv false a ch
      = match getAttr a "data-bind" with
        | none => (a, ch, false)
        | some p => (a, textChildren (bindText fm d gv a p), true) := by
  unfold bindPass bindText
  cases getAttr a "data-bind" with
  | none => rfl
  | some p => rfl

mutual

/-- The root-mode (`removeOnCondition = false`, `removeAttributes = false`)
simple-bindings pass as a total function; `sbNode_root_eq` proves it agrees
with `sbNode` at those flags. -/
def sbR (fm : Formatters) (off : Int) (d : JsData) (i : Nat) : Node → Node
  | Node.text s => Node.text s
  | Node.elem tag a disp ch ct =>
      if (getAttr a "data-bind-template").isSome then Node.elem tag a disp ch ct
      else
        let gv := fun p => dbGetValue off d p i
        let a1 := attrPass gv false a
        if (getAttr a1 "data-bind-template").isSome then Node.elem tag a1 disp ch ct
        else
          let d4 := hideKeptDisp gv a1 (showKeptDisp gv a1 disp)
          match getAttr a1 "data-bind" with
          | some p => Node.elem tag a1 d4 (textChildren (bindText fm d gv a1 p)) ct
          | none => Node.elem tag a1 d4 (sbRs fm off d i ch) ct

/-- `sbR` over a child list. -/
def sbRs (fm : Formatters) (off : Int) (d : JsData) (i : Nat) : List Node → List Node
  | [] => []
  | n :: ns => sbR fm off d i n :: sbRs fm off d i ns

end

mutual

theorem sbNode_root_eq (fm : Formatters) (off : Int) (d : JsData) (i : Nat) :
    ∀ n : Node, sbNode fm off d i false false n = some (sbR fm off d i n)
  | Node.text s => rfl
  | Node.elem tag a disp ch ct => by
      simp only [sbNode, sbR]
      cases hm : (getAttr a "data-bind-template").isSome with
      | true => simp
      | false =>
          simp only [Bool.false_eq_true, if_false]
          cases hm1 : (getAttr (attrPass (fun p => dbGetValue off d p i) false a)
              "data-bind-template").isSome with
          | true => simp
          | false =>
              simp only [Bool.false_eq_true, if_false]
              rw [bindPass_root]
              cases hdb : getAttr (attrPass (fun p => dbGetValue off d p i) false a)
                  "data-bind" with
              | some p =>
                  simp [showIfPass_root, hideIfPass_root]
              | none =>
                  simp only [showIfPass_root, hideIfPass_root]
                  rw [sbNodes_root_eq fm off d i ch]
                  simp

theorem sbNodes_root_eq (fm : Formatters) (off : Int) (d : JsData) (i : Nat) :
    ∀ l : List Node, sbNodes fm off d i false false l = sbRs fm off d i l
  | [] => rfl
  | n :: ns => by
      simp only [sbNodes, sbRs]
      rw [sbNode_root_eq fm off d i n, sbNodes_root_eq fm off d i ns]

end

end Zooy

namespace Zooy

/-! ## C5: well-formedness and stability -/

/-- Well-formedness of one `data-bind-attr` spec for the idempotence
theorem: every binding has a path (no colon-less binding, on which the
JavaScript would throw) and no binding writes the `data-bind-attr`
attribute itself (the counterexample shows a self-rewriting spec breaks
idempotence). -/
def wfAttrSpec (s : String) : Bool :=
  (parseBindings s).all fun p => p.2.isSome && decide (p.1 ≠ "data-bind-attr")

/-- Well-formedness of an element's binding spec, if any. -/
def wfSpec (a : List (String × String)) : Prop :=
  match getAttr a "data-bind-attr" with
  | some s => wfAttrSpec s = true
  | none => True

mutual

/-- Tree well-formedness for the idempotence theorem: every element's
`data-bind-attr` (template content excluded — clones are rebuilt from
pristine content on every run) is well-formed. -/
def wfNode : Node → Bool
  | Node.text _ => true
  | Node.elem _ a _ ch _ =>
      (match getAttr a "data-bind-attr" with
       | some s => wfAttrSpec s
       | none => true) && wfNodes ch

/-- `wfNode` over a child list. -/
def wfNodes : List Node → Bool
  | [] => true
  | n :: ns => wfNode n && wfNodes ns

end

theorem wfNode_elem (tag : String) (a : List (String × String)) (disp : String)
    (ch ct : List Node) (h : wfNode (Node.elem tag a disp ch ct) = true) :
    wfSpec a ∧ wfNodes ch = true := by
  simp only [wfNode, Bool.and_eq_true] at h
  refine ⟨?_, h.2⟩
  unfold wfSpec
  cases hs : getAttr a "data-bind-attr" with
  | none => trivial
  | some s =>
      rw [hs] at h
      exact h.1

theorem opsOf_keys (gv : String → Option Json) (s : String) :
    ∀ q ∈ opsOf gv s, q.1 ∈ (parseBindings s).map Prod.fst := by
  intro q hq
  simp only [opsOf, List.mem_filterMap] at hq
  obtain ⟨p, hp, hf⟩ := hq
  revert hf
  cases p.2 with
  | none => intro hf; cases hf
  | some path =>
      simp only
      by_cases hv : isDefAndNotNull (gv path) = true
      · simp only [hv, if_true]
        cases hgv : gv path with
        | none => intro hf; cases hf
        | some j =>
            intro hf
            injection hf with hf
            rw [← hf]
            exact List.mem_map_of_mem Prod.fst hp
      · simp only [hv]
        intro hf
        simp at hf

theorem attrPass_spec_preserved (gv : String → Option Json)
    (a : List (String × String)) (hwf : wfSpec a) :
    getAttr (attrPass gv false a) "data-bind-attr" = getAttr a "data-bind-attr" := by
  cases h : getAttr a "data-bind-attr" with
  | none => simp [attrPass, h]
  | some s =>
      have hnotin : "data-bind-attr" ∉ (opsOf gv s).map Prod.fst := by
        intro hmem
        simp only [List.mem_map] at hmem
        obtain ⟨q, hq, hq1⟩ := hmem
        have hk := opsOf_keys gv s q hq
        simp only [List.mem_map] at hk
        obtain ⟨p, hp, hp1⟩ := hk
        unfold wfSpec at hwf
        rw [h] at hwf
        unfold wfAttrSpec at hwf
        have := (List.all_eq_true.mp hwf) p hp
        simp only [Bool.and_eq_true, decide_eq_true_eq] at this
        exact this.2 (hp1.trans hq1)
      have h1 : attrPass gv false a = applyOps a (opsOf gv s) := by
        simp [attrPass, h]
      rw [h1, applyOps_getAttr_notin a (opsOf gv s) "data-bind-attr" hnotin]
      exact h

theorem attrPass_stable (gv : String → Option Json)
    (a : List (String × String)) (hwf : wfSpec a) :
    attrPass gv false (attrPass gv false a) = attrPass gv false a := by
  have hpres := attrPass_spec_preserved gv a hwf
  cases h : getAttr a "data-bind-attr" with
  | none =>
      have h0 : attrPass gv false a = a := by
        simp [attrPass, h]
      rw [h0]
      exact h0
  | some s =>
      have h1 : attrPass gv false a = applyOps a (opsOf gv s) := by
        simp [attrPass, h]
      have hpres2 : getAttr (applyOps a (opsOf gv s)) "data-bind-attr" = some s := by
        rw [← h1, hpres]
        exact h
      calc attrPass gv false (attrPass gv false a)
          = attrPass gv false (applyOps a (opsOf gv s)) := by rw [h1]
        _ = applyOps (applyOps a (opsOf gv s)) (opsOf gv s) := by
              simp [attrPass, hpres2]
        _ = applyOps a (opsOf gv s) := applyOps_idem a (opsOf gv s)
        _ = attrPass gv false a := h1.symm

/-- Every branch of the consumer pass returns the element with the same
tag, attributes, display and content — only the children change. -/
theorem cpNode_shape (fm : Formatters) (L : String → Option Node) (off : Int)
    (d : JsData) (tag : String) (a : List (String × String)) (disp : String)
    (ch ct : List Node) :
    ∃ ch2, cpNode fm L off d (Node.elem tag a disp ch ct)
      = Node.elem tag a disp ch2 ct := by
  simp only [cpNode]
  cases h : getAttr a "data-bind-template" with
  | none => exact ⟨_, rfl⟩
  | some tid =>
      by_cases htid : tid = ""
      · simp only [htid, if_true]
        exact ⟨_, rfl⟩
      · simp only [htid, if_false]
        cases hl : L tid with
        | none => exact ⟨_, rfl⟩
        | some tn =>
            cases tn with
            | text s => exact ⟨_, rfl⟩
            | elem ttag ta tdisp tch tct =>
                by_cases ht : ttag = "TEMPLATE"
                · simp only [ht, if_true]
                  cases consumerSlice d (getAttr a "data-path") with
                  | none => exact ⟨_, rfl⟩
                  | some items => exact ⟨_, rfl⟩
                · simp only [ht, if_false]
                  exact ⟨_, rfl⟩

mutual

theorem cpNode_idem (fm : Formatters) (L : String → Option Node) (off : Int)
    (d : JsData) : ∀ n : Node,
    cpNode fm L off d (cpNode fm L off d n) = cpNode fm L off d n
  | Node.text s => rfl
  | Node.elem tag a disp ch ct => by
      simp only [cpNode]
      cases h : getAttr a "data-bind-template" with
      | none =>
          simp only [cpNode, h]
          rw [cpNodes_idem fm L off d ch]
      | some tid =>
          by_cases htid : tid = ""
          · simp only [htid, if_true, cpNode, h]
            rw [cpNodes_idem fm L off d ch]
          · simp only [htid, if_false]
            cases hl : L tid with
            | none =>
                simp only [cpNode, h, htid, if_false, hl]
                rw [cpNodes_idem fm L off d ch]
            | some tn =>
                cases tn with
                | text s =>
                    simp only [cpNode, h, htid, if_false, hl]
                    rw [cpNodes_idem fm L off d ch]
                | elem ttag ta tdisp tch tct =>
                    by_cases ht : ttag = "TEMPLATE"
                    · simp only [ht, if_true]
                      cases hs : consumerSlice d (getAttr a "data-path") with
                      | none =>
                          simp only [cpNode, h, htid, if_false, hl, ht, if_true, hs]
                          rw [cpNodes_idem fm L off d ch]
                      | some items =>
                          simp only [cpNode, h, htid, if_false, hl, ht, if_true, hs]
                    · simp only [ht, if_false]
                      simp only [cpNode, h, htid, if_false, hl, ht]
                      rw [cpNodes_idem fm L off d ch]

theorem cpNodes_idem (fm : Formatters) (L : String → Option Node) (off : Int)
    (d : JsData) : ∀ l : List Node,
    cpNodes fm L off d (cpNodes fm L off d l) = cpNodes fm L off d l
  | [] => rfl
  | n :: ns => by
      simp only [cpNodes]
      rw [cpNode_idem fm L off d n, cpNodes_idem fm L off d ns]

end

end Zooy

namespace Zooy

/-! ## C5: the simple pass is stable on rendered output -/

theorem sbR_marker (fm : Formatters) (off : Int) (d : JsData) (i : Nat)
    (tag : String) (a : List (String × String)) (disp : String) (ch ct : List Node)
    (hm : (getAttr a "data-bind-template").isSome = true) :
    sbR fm off d i (Node.elem tag a disp ch ct) = Node.elem tag a disp ch ct := by
  simp [sbR, hm]

theorem sbR_elem_self (fm : Formatters) (off : Int) (d : JsData) (i : Nat)
    (tag : String) (a a1 : List (String × String)) (disp : String) (ch ct : List Node)
    (hm : (getAttr a "data-bind-template").isSome = false)
    (ha1 : attrPass (fun q => dbGetValue off d q i) false a = a1)
    (hm1 : (getAttr a1 "data-bind-template").isSome = true) :
    sbR fm off d i (Node.elem tag a disp ch ct) = Node.elem tag a1 disp ch ct := by
  simp only [sbR, ha1, hm, Bool.false_eq_true, if_false, hm1, if_true]

theorem sbR_elem_bind (fm : Formatters) (off : Int) (d : JsData) (i : Nat)
    (tag : String) (a a1 : List (String × String)) (disp p : String)
    (ch ct : List Node)
    (hm : (getAttr a "data-bind-template").isSome = false)
    (ha1 : attrPass (fun q => dbGetValue off d q i) false a = a1)
    (hm1 : (getAttr a1 "data-bind-template").isSome = false)
    (hdb : getAttr a1 "data-bind" = some p) :
    sbR fm off d i (Node.elem tag a disp ch ct)
      = Node.elem tag a1
          (hideKeptDisp (fun q => dbGetValue off d q i) a1
            (showKeptDisp (fun q => dbGetValue off d q i) a1 disp))
          (textChildren (bindText fm d (fun q => dbGetValue off d q i) a1 p)) ct := by
  simp only [sbR, ha1, hm, Bool.false_eq_true, if_false, hm1, hdb]

theorem sbR_elem_nobind (fm : Formatters) (off : Int) (d : JsData) (i : Nat)
    (tag : String) (a a1 : List (String × String)) (disp : String)
    (ch ct : List Node)
    (hm : (getAttr a "data-bind-template").isSome = false)
    (ha1 : attrPass (fun q => dbGetValue off d q i) false a = a1)
    (hm1 : (getAttr a1 "data-bind-template").isSome = false)
    (hdb : getAttr a1 "data-bind" = none) :
    sbR fm off d i (Node.elem tag a disp ch ct)
      = Node.elem tag a1
          (hideKeptDisp (fun q => dbGetValue off d q i) a1
            (showKeptDisp (fun q => dbGetValue off d q i) a1 disp))
          (sbRs fm off d i ch) ct := by
  simp only [sbR, ha1, hm, Bool.false_eq_true, if_false, hm1, hdb]

theorem cpNodes_textChildren (fm : Formatters) (L : String → Option Node)
    (off : Int) (d : JsData) (s : String) :
    cpNodes fm L off d (textChildren s) = textChildren s := by
  by_cases h : s = "" <;> simp [textChildren, h, cpNodes, cpNode]

theorem isSome_false_eq_none {α : Type} (o : Option α) (h : o.isSome = false) :
    o = none := by
  cases o with
  | none => rfl
  | some v => simp at h

theorem cpNode_elem_no_marker (fm : Formatters) (L : String → Option Node)
    (off : Int) (d : JsData) (tag : String) (a : List (String × String))
    (disp : String) (ch ct : List Node)
    (h : getAttr a "data-bind-template" = none) :
    cpNode fm L off d (Node.elem tag a disp ch ct)
      = Node.elem tag a disp (cpNodes fm L off d ch) ct := by
  simp [cpNode, h]

mutual

theorem sbR_cp_fix (fm : Formatters) (L : String → Option Node) (off : Int)
    (d : JsData) (i : Nat) : ∀ n : Node, wfNode n = true →
    sbR fm off d i (cpNode fm L off d (sbR fm off d i n))
      = cpNode fm L off d (sbR fm off d i n)
  | Node.text s, _ => rfl
  | Node.elem tag a disp ch ct, h => by
      obtain ⟨hwspec, hwch⟩ := wfNode_elem tag a disp ch ct h
      cases hm : (getAttr a "data-bind-template").isSome with
      | true =>
          rw [sbR_marker fm off d i tag a disp ch ct hm]
          obtain ⟨ch2, hshape⟩ := cpNode_shape fm L off d tag a disp ch ct
          rw [hshape, sbR_marker fm off d i tag a disp ch2 ct hm]
      | false =>
          have hstab : attrPass (fun q => dbGetValue off d q i) false
              (attrPass (fun q => dbGetValue off d q i) false a)
              = attrPass (fun q => dbGetValue off d q i) false a :=
            attrPass_stable (fun q => dbGetValue off d q i) a hwspec
          cases hm1 : (getAttr (attrPass (fun q => dbGetValue off d q i) false a)
              "data-bind-template").isSome with
          | true =>
              rw [sbR_elem_self fm off d i tag a _ disp ch ct hm rfl hm1]
              obtain ⟨ch2, hshape⟩ := cpNode_shape fm L off d tag
                (attrPass (fun q => dbGetValue off d q i) false a) disp ch ct
              rw [hshape, sbR_marker fm off d i tag _ disp ch2 ct hm1]
          | false =>
              have hnone1 := isSome_false_eq_none _ hm1
              cases hdb : getAttr (attrPass (fun q => dbGetValue off d q i) false a)
                  "data-bind" with
              | some p =>
                  rw [sbR_elem_bind fm off d i tag a _ disp p ch ct hm rfl hm1 hdb]
                  rw [cpNode_elem_no_marker fm L off d tag _ _ _ ct hnone1]
                  rw [cpNodes_textChildren]
                  rw [sbR_elem_bind fm off d i tag _ _ _ p _ ct hm1 hstab hm1 hdb]
                  rw [dispUpdate_idem]
              | none =>
                  rw [sbR_elem_nobind fm off d i tag a _ disp ch ct hm rfl hm1 hdb]
                  rw [cpNode_elem_no_marker fm L off d tag _ _ _ ct hnone1]
                  rw [sbR_elem_nobind fm off d i tag _ _ _ _ ct hm1 hstab hm1 hdb]
                  rw [dispUpdate_idem]
                  rw [sbRs_cp_fix fm L off d i ch hwch]

theorem sbRs_cp_fix (fm : Formatters) (L : String → Option Node) (off : Int)
    (d : JsData) (i : Nat) : ∀ l : List Node, wfNodes l = true →
    sbRs fm off d i (cpNodes fm L off d (sbRs fm off d i l))
      = cpNodes fm L off d (sbRs fm off d i l)
  | [], _ => rfl
  | n :: ns, h => by
      have h2 : wfNode n = true ∧ wfNodes ns = true := by
        simpa [wfNodes, Bool.and_eq_true] using h
      simp only [sbRs, cpNodes]
      rw [sbR_cp_fix fm L off d i n h2.1, sbRs_cp_fix fm L off d i ns h2.2]

end

end Zooy

namespace Zooy

/-! ## C5: idempotence of render -/

/-- C5, amended: `render()` is a full stateless re-run and is idempotent —
calling it again with the same stored payload and offset reproduces the
same DOM state — provided the tree's `data-bind-attr` specs are well-formed
`attr:path` pairs none of which writes the `data-bind-attr` attribute
itself (`wfNode`; the counterexample shows a self-rewriting spec changes
what the second run does).  Each run re-clears and re-clones every template
consumer (`cpNode_idem`), root-level attribute writes, text assignment and
display updates recompute the same values (`sbR_cp_fix`), and the binder
retains no other state between runs than the payload and offset, as
`DBState` shows. -/
theorem C5_render_idempotent (fm : Formatters) (L : String → Option Node)
    (off : Int) (d : JsData) (t : Node) (hwf : wfNode t = true) :
    render fm L off d (render fm L off d t) = render fm L off d t := by
  unfold render
  cases hd : jsDataFalsy d with
  | true => simp
  | false =>
      simp only [Bool.false_eq_true, if_false]
      cases t with
      | text s => rfl
      | elem tag a disp ch ct =>
          obtain ⟨hwspec, hwch⟩ := wfNode_elem tag a disp ch ct hwf
          cases hm : (getAttr a "data-bind-template").isSome with
          | true =>
              have h1 : sbRoot fm off d 0 false false (Node.elem tag a disp ch ct)
                  = Node.elem tag a disp ch ct := by
                simp [sbRoot, hm]
              have h2 : cpRoot fm L off d (Node.elem tag a disp ch ct)
                  = Node.elem tag a disp (cpNodes fm L off d ch) ct := rfl
              rw [h1, h2]
              have h3 : sbRoot fm off d 0 false false
                  (Node.elem tag a disp (cpNodes fm L off d ch) ct)
                  = Node.elem tag a disp (cpNodes fm L off d ch) ct := by
                simp [sbRoot, hm]
              rw [h3]
              have h4 : cpRoot fm L off d
                  (Node.elem tag a disp (cpNodes fm L off d ch) ct)
                  = Node.elem tag a disp (cpNodes fm L off d (cpNodes fm L off d ch)) ct := rfl
              rw [h4, cpNodes_idem]
          | false =>
              have h1 : sbRoot fm off d 0 false false (Node.elem tag a disp ch ct)
                  = Node.elem tag a disp (sbRs fm off d 0 ch) ct := by
                simp only [sbRoot, hm, Bool.false_eq_true, if_false]
                rw [sbNodes_root_eq]
              rw [h1]
              have h2 : cpRoot fm L off d (Node.elem tag a disp (sbRs fm off d 0 ch) ct)
                  = Node.elem tag a disp (cpNodes fm L off d (sbRs fm off d 0 ch)) ct := rfl
              rw [h2]
              have h3 : sbRoot fm off d 0 false false
                  (Node.elem tag a disp (cpNodes fm L off d (sbRs fm off d 0 ch)) ct)
                  = Node.elem tag a disp
                      (sbRs fm off d 0 (cpNodes fm L off d (sbRs fm off d 0 ch))) ct := by
                simp only [sbRoot, hm, Bool.false_eq_true, if_false]
                rw [sbNodes_root_eq]
              rw [h3, sbRs_cp_fix fm L off d 0 ch hwch]
              have h4 : cpRoot fm L off d
                  (Node.elem tag a disp (cpNodes fm L off d (sbRs fm off d 0 ch)) ct)
                  = Node.elem tag a disp
                      (cpNodes fm L off d (cpNodes fm L off d (sbRs fm off d 0 ch))) ct := rfl
              rw [h4, cpNodes_idem]

/-- Payload for the idempotence counterexample: the bound path `p` holds a
fresh binding spec, `c` the value it would then write. -/
def c5data : JsData :=
  JsData.jval (Json.obj [("p", Json.str "class:c"), ("c", Json.str "x")])

/-- A tree whose single `data-bind-attr` binding rewrites the
`data-bind-attr` attribute itself. -/
def c5tree : Node :=
  Node.elem "DIV" [] ""
    [Node.elem "SPAN" [("data-bind-attr", "data-bind-attr:p")] "" [] []] []

/-- Attribute list of the first element child, to observe the divergence. -/
def attrsOfFirstChild : Node → List (String × String)
  | Node.elem _ _ _ (Node.elem _ a _ _ _ :: _) _ => a
  | _ => []

/-- C5, counterexample: one `render()` run rewrites the span's
`data-bind-attr` spec from `data-bind-attr:p` to `class:c` (the bound
value); the second run therefore executes a different binding and adds
`class="x"` — the second call does not reproduce the DOM state of the
first, so `render()` is not idempotent as claimed. -/
theorem C5_counterexample :
    render wFm wLk 0 c5data (render wFm wLk 0 c5data c5tree)
      ≠ render wFm wLk 0 c5data c5tree := by
  intro h
  have h2 := congrArg attrsOfFirstChild h
  have e1 : attrsOfFirstChild (render wFm wLk 0 c5data (render wFm wLk 0 c5data c5tree))
      = [("data-bind-attr", "class:c"), ("class", "x")] := rfl
  have e2 : attrsOfFirstChild (render wFm wLk 0 c5data c5tree)
      = [("data-bind-attr", "class:c")] := rfl
  rw [e1, e2] at h2
  simp at h2

/-- A well-formed tree for the C5 witness: a text binding, an attribute
binding and a template consumer. -/
def c5wTree : Node :=
  Node.elem "DIV" [] ""
    [Node.elem "H1" [("data-bind", "name")] "" [] [],
     Node.elem "IMG" [("data-bind-attr", "src:u, alt:name")] "" [] [],
     Node.elem "UL" [("data-bind-template", "t"), ("data-path", "xs")] ""
       [Node.text "old"] []] []

/-- C5 witness: the amended idempotence applied to a concrete well-formed
tree and payload. -/
theorem C5_render_idempotent_witness :
    wfNode c5wTree = true
      ∧ render wFm wLk 0
          (JsData.jval (Json.obj [("name", Json.str "Bob"), ("u", Json.str "x.png")]))
          (render wFm wLk 0
            (JsData.jval (Json.obj [("name", Json.str "Bob"), ("u", Json.str "x.png")]))
            c5wTree)
        = render wFm wLk 0
            (JsData.jval (Json.obj [("name", Json.str "Bob"), ("u", Json.str "x.png")]))
            c5wTree :=
  ⟨rfl, C5_render_idempotent wFm wLk 0
    (JsData.jval (Json.obj [("name", Json.str "Bob"), ("u", Json.str "x.png")]))
    c5wTree rfl⟩

end Zooy
